import Mathlib

/-
  Verification development for the htmls selector-language engine
  (lexer → parser → AST → semantic validator → tree-walking interpreter).

  The definitions below are a shallow embedding of the Rust sources:
    src/lexer.rs, src/parser/*.rs, src/interpreter/*.rs
  Rust machine integers are modelled as Int/Nat with explicit wrapping where
  the source casts; Rust String values flowing through the interpreter's
  text results are modelled as their UTF-8 byte sequences (List Nat), since
  the slice function operates on raw bytes; fallible code returns Except.
  External collaborators (the html5ever DOM library, the regex crate, and
  Unicode tables of the Rust standard library) are modelled at their
  interfaces, as the specification treats them as out of scope.
-/

set_option maxRecDepth 4000

namespace Htmls

/-- UTF-8 byte string: the model of a Rust String / str as its byte sequence. -/
abbrev RStr := List Nat

/-- UTF-8 encoding of a single character (the bytes Rust stores for it). -/
def charUtf8 (c : Char) : List Nat :=
  let n := c.toNat
  if n < 0x80 then [n]
  else if n < 0x800 then
    [0xC0 + n / 0x40, 0x80 + n % 0x40]
  else if n < 0x10000 then
    [0xE0 + n / 0x1000, 0x80 + (n / 0x40) % 0x40, 0x80 + n % 0x40]
  else
    [0xF0 + n / 0x40000, 0x80 + (n / 0x1000) % 0x40, 0x80 + (n / 0x40) % 0x40,
     0x80 + n % 0x40]

/-- The UTF-8 bytes of a Lean string: the representation a Rust String holds. -/
def strBytes (s : String) : RStr :=
  s.data.foldr (fun c acc => charUtf8 c ++ acc) []

/- ===================== parser/ast.rs : literals and AST ===================== -/

/-- Literal values of the selector language (parser/ast.rs).
    The Float payload is omitted: machine floats are not shallowly embeddable,
    the lexer in src/lexer.rs has no production for float tokens, and no
    claim depends on float values. -/
inductive Literal where
  | int (n : Int)
  | str (s : String)
  | float
  | bool (b : Bool)
  | list (xs : List Literal)
  | nil
deriving Repr

/-- Element query node (parser/ast.rs ElementNode). -/
inductive ElementNode where
  | Class (pattern : String) ( is_regex : Bool)
  | Id (pattern : String) ( is_regex : Bool)
  | Tag (pattern : String) ( is_regex : Bool)
  | Attr (name : String) (value : Option String) ( is_regex : Bool)
deriving Repr

/-- Text query node (parser/ast.rs TextNode). -/
inductive TextNode where
  | Text
  | Href
  | Src
  | AttrValue (name : String) ( is_regex : Bool)
deriving Repr

/-- Selector node (parser/ast.rs SelectorNode). -/
inductive SelectorNode where
  | ElementSelector (e : ElementNode)
  | TextSelector (t : TextNode)
deriving Repr

/-- Index selection node (parser/ast.rs IndexNode). -/
inductive IndexNode where
  | Single (idx : Literal)
  | Multiple (indices : List Literal)
  | Range (start stop step : Option Literal)
deriving Repr

/-- Function call node (parser/ast.rs FunctionNode). -/
structure FunctionNode where
  name : String
  arguments : List Literal
deriving Repr

mutual

/-- Top-level AST node (parser/ast.rs Node). -/
inductive Node where
  | Selector (s : SelectorNode)
  | Pipeline (left right : Node)
  | SetOperation (op : SetOperationNode)
  | IndexSelection (inner : Node) (idx : IndexNode)
  | FunctionCall (inner : Node) (fn : FunctionNode)

/-- Set operation node (parser/ast.rs SetOperationNode). -/
inductive SetOperationNode where
  | Union (left right : Node)
  | Intersection (left right : Node)
  | Difference (left right : Node)

end

/- ===================== parser/error.rs ===================== -/

/-- Parser error kinds (parser/error.rs ParseErrorKind). -/
inductive ParseErrorKind where
  | UnexpectedToken
  | InvalidSelectorValue
  | NestingTooDeep
  | SyntaxError
  | MultipleTextSelectors
  | ElementAfterTextSelector
deriving DecidableEq, Repr

/-- Display strings of ParseErrorKind (parser/error.rs Display impl). -/
def ParseErrorKind.display : ParseErrorKind → String
  | .UnexpectedToken => "Unexpected token"
  | .InvalidSelectorValue => "Invalid selector value"
  | .NestingTooDeep => "Nesting level too deep"
  | .SyntaxError => "Syntax error"
  | .MultipleTextSelectors => "Multiple text query directives"
  | .ElementAfterTextSelector => "Element query after text query"

/-- Parse error (parser/error.rs ParseError). -/
structure ParseError where
  kind : ParseErrorKind
  message : String
  line : Nat
  column : Nat
  recovery_hint : Option String
deriving DecidableEq, Repr

/-- ParseError::unexpected_token. -/
def ParseError.unexpected_token (expected found : String) (line column : Nat) : ParseError :=
  { kind := .UnexpectedToken
    message := "Expected " ++ expected ++ " but found " ++ found
    line := line, column := column
    recovery_hint := some ("Please check if " ++ expected ++ " is missing here") }

/-- ParseError::syntax_error. -/
def ParseError.syntax_error (msg : String) (line column : Nat) : ParseError :=
  { kind := .SyntaxError, message := msg, line := line, column := column
    recovery_hint := none }

/-- ParseError::invalid_selector_value. -/
def ParseError.invalid_selector_value (value : String) (line column : Nat) : ParseError :=
  { kind := .InvalidSelectorValue
    message := "Invalid selector value: " ++ value
    line := line, column := column
    recovery_hint := some "Please check if the selector value format is correct" }

/-- ParseError::nesting_too_deep. -/
def ParseError.nesting_too_deep (max_depth : Nat) (line column : Nat) : ParseError :=
  { kind := .NestingTooDeep
    message := "Expression nesting exceeds maximum depth (" ++ toString max_depth ++ ")"
    line := line, column := column
    recovery_hint := some "Please simplify the expression, reduce nesting levels" }

/-- ParseError::multiple_text_selectors. -/
def ParseError.multiple_text_selectors (line column : Nat) : ParseError :=
  { kind := .MultipleTextSelectors
    message := "Query operation can only contain one text query directive"
    line := line, column := column
    recovery_hint := some "Please remove extra text query directives or separate them with set operations (+, *, -)" }

/-- ParseError::element_after_text_selector. -/
def ParseError.element_after_text_selector (line column : Nat) : ParseError :=
  { kind := .ElementAfterTextSelector
    message := "Element query directives cannot appear after text query directives"
    line := line, column := column
    recovery_hint := some "Please place element query directives before text query directives" }

/-- Display of a ParseError (parser/error.rs Display impl). -/
def ParseError.display (e : ParseError) : String :=
  "Parse error (line " ++ toString e.line ++ ", column " ++ toString e.column ++ "): "
    ++ e.kind.display ++ " - " ++ e.message
    ++ (match e.recovery_hint with
        | some hint => "\nHint: " ++ hint
        | none => "")

/- ===================== interpreter/error.rs ===================== -/

/-- Interpreter error (interpreter/error.rs InterpreterError). -/
inductive InterpreterError where
  | HtmlParseError (msg : String)
  | ParserError (msg : String)
  | NodeSelectionError (msg : String)
  | TextExtractionError (msg : String)
  | AttributeExtractionError (msg : String)
  | IndexOutOfBounds (idx len : Nat)
  | InvalidStep (step : Int)
  | InvalidRegex (msg : String)
  | UnknownFunction (name : String)
  | MissingArgument (msg : String)
  | InvalidArgument (msg : String)
  | ExecutionError (msg : String)
  | ResultLimitExceeded (limit : Nat)
deriving DecidableEq, Repr

/-- Rust's `n as usize` on an i64 value: wraps modulo 2^64
    (used by the index-out-of-bounds error payload). -/
def i64AsUsize (n : Int) : Nat := (n % (2 : Int) ^ 64).toNat

/- ===================== lexer.rs : tokens ===================== -/

/-- Alias for String usable inside the Token declaration, where the
    constructor named String shadows the type. -/
abbrev TString := String

/-- Alias for Bool usable inside the Token declaration, where the
    constructor named Bool shadows the type. -/
abbrev TBool := Bool

/-- Tokens (lexer.rs Token). The final eight constructors (Pound, Tilde,
    String, Bool, Float, Minus, LeftBracket, RightBracket) appear only in
    match arms of the parser sources (parser/text.rs, parser/literal.rs,
    parser/basic.rs) and have no production in lexer.rs; they are carried
    here so those match arms can be embedded as written, and are dead at
    run time because tokenize never emits them. -/
inductive Token where
  | Pipeline
  | Class
  | Id
  | Tag
  | Attr
  | Text
  | Src
  | Href
  | Function (name : String)
  | Comma
  | Colon
  | Number (n : Nat)
  | Argument (arg : String)
  | QuotedArgument (arg : String)
  | Regex
  | LeftParen
  | RightParen
  | Union
  | Intersection
  | Difference
  | EOF
  | Pound
  | Tilde
  | String (s : TString)
  | Bool (b : TBool)
  | Float
  | Minus
  | LeftBracket
  | RightBracket
deriving DecidableEq, Repr

/-- Display of a token (lexer.rs Display impl; the parser-only constructors
    have no Display in the source and render as their debug names). -/
def Token.display : Token → TString
  | .Pipeline => ">"
  | .Class => "class"
  | .Id => "id"
  | .Tag => "tag"
  | .Attr => "attr"
  | .Text => "text"
  | .Src => "src"
  | .Href => "href"
  | .Argument arg => arg
  | .QuotedArgument arg => "\"" ++ arg ++ "\""
  | .Regex => "~"
  | .Function func => "@" ++ func
  | .Comma => ","
  | .Colon => ":"
  | .Number n => toString n
  | .LeftParen => "("
  | .RightParen => ")"
  | .Union => "|"
  | .Intersection => "&"
  | .Difference => "^"
  | .EOF => "EOF"
  | .Pound => "#"
  | .Tilde => "~"
  | .String s => s
  | .Bool b => toString b
  | .Float => "float"
  | .Minus => "-"
  | .LeftBracket => "["
  | .RightBracket => "]"

/-- Lexical error (lexer.rs LexerError). -/
structure LexerError where
  message : String
  line : Nat
  column : Nat
deriving DecidableEq, Repr

/- ===================== lexer.rs : the lexical analyzer ===================== -/

/-- Lexer state (lexer.rs Lexer). -/
structure Lexer where
  chars : List Char
  position : Nat
  read_position : Nat
  current_char : Option Char
  line : Nat
  column : Nat
deriving Repr

namespace Lexer

/-- Lexer::read_char. -/
def read_char (lx : Lexer) : Lexer :=
  let c := lx.chars[lx.read_position]?
  let lx := { lx with current_char := c
                      position := lx.read_position
                      read_position := lx.read_position + 1 }
  match c with
  | some '\n' => { lx with line := lx.line + 1, column := 0 }
  | _ => { lx with column := lx.column + 1 }

/-- Lexer::new. -/
def new (input : String) : Lexer :=
  read_char { chars := input.data, position := 0, read_position := 0
              current_char := none, line := 1, column := 0 }

/-- Rust char::is_whitespace, an external Unicode classification; the ASCII
    subset used by Lean's Char.isWhitespace covers every selector this
    development evaluates. -/
def isWhitespaceChar (c : Char) : Bool := c.isWhitespace

/-- Lexer::skip_whitespace. The fuel bounds the loop; each iteration consumes
    one character, so chars.length + 1 fuel always suffices. -/
def skip_whitespace (fuel : Nat) (lx : Lexer) : Lexer :=
  match fuel with
  | 0 => lx
  | fuel + 1 =>
    match lx.current_char with
    | some c => if isWhitespaceChar c then skip_whitespace fuel (read_char lx) else lx
    | none => lx

/-- Lexer::is_unicode_identifier_part. -/
def is_unicode_identifier_part (c : Char) : Bool :=
  (0x4E00 ≤ c.toNat && c.toNat ≤ 0x9FFF) ||
  (0x3040 ≤ c.toNat && c.toNat ≤ 0x309F) ||
  (0x30A0 ≤ c.toNat && c.toNat ≤ 0x30FF) ||
  (0xAC00 ≤ c.toNat && c.toNat ≤ 0xD7AF) ||
  (0x1F600 ≤ c.toNat && c.toNat ≤ 0x1F64F) ||
  (0x1F300 ≤ c.toNat && c.toNat ≤ 0x1F5FF) ||
  (0x1F680 ≤ c.toNat && c.toNat ≤ 0x1F6FF) ||
  (0x2600 ≤ c.toNat && c.toNat ≤ 0x26FF)

/-- Lexer::is_identifier_start (char::is_alphabetic modelled by its ASCII
    subset; the named Unicode ranges are listed explicitly as in the source). -/
def is_identifier_start (c : Char) : Bool :=
  c.isAlpha || c == '_' || is_unicode_identifier_part c

/-- Lexer::is_identifier_part. -/
def is_identifier_part (c : Char) : Bool :=
  c.isAlphanum || c == '_' || is_unicode_identifier_part c

/-- Lexer::is_function_name_start. -/
def is_function_name_start (c : Char) : Bool := c.isAlpha && c.toNat < 128

/-- Lexer::is_function_name_part. -/
def is_function_name_part (c : Char) : Bool :=
  (c.isAlphanum && c.toNat < 128) || c == '_'

/-- The source slice chars[start..stop] collected into a String. -/
def sliceStr (chars : List Char) (start stop : Nat) : String :=
  String.mk ((chars.drop start).take (stop - start))

/-- Lexer::read_number. -/
def read_number (fuel : Nat) (lx : Lexer) : (Except LexerError Token) × Lexer :=
  let start_position := lx.position
  let lx := readDigits fuel lx
  let number_str := sliceStr lx.chars start_position lx.position
  match number_str.toNat? with
  | some number => (.ok (.Number number), lx)
  | none =>
    (.error { message := "Unable to resolve the number: " ++ number_str
              line := lx.line, column := lx.column }, lx)
where
  /-- The digit-consuming loop of read_number. -/
  readDigits : Nat → Lexer → Lexer
  | 0, lx => lx
  | fuel + 1, lx =>
    match lx.current_char with
    | some c => if c.isDigit then readDigits fuel (read_char lx) else lx
    | none => lx

/-- Lexer::read_function. -/
def read_function (fuel : Nat) (lx : Lexer) : (Except LexerError Token) × Lexer :=
  let lx := read_char lx
  let start_position := lx.position
  match lx.current_char with
  | some c =>
    if !is_function_name_start c then
      (.error { message := "Function names must start with a letter."
                line := lx.line, column := lx.column }, lx)
    else
      let lx := readParts fuel lx
      (.ok (.Function (sliceStr lx.chars start_position lx.position)), lx)
  | none =>
    (.error { message := "Function name cannot be empty."
              line := lx.line, column := lx.column }, lx)
where
  /-- The name-consuming loop of read_function. -/
  readParts : Nat → Lexer → Lexer
  | 0, lx => lx
  | fuel + 1, lx =>
    match lx.current_char with
    | some c => if is_function_name_part c then readParts fuel (read_char lx) else lx
    | none => lx

/-- Rust char::is_ascii_hexdigit. -/
def isHexDigitChar (c : Char) : Bool :=
  c.isDigit || ('a' ≤ c && c ≤ 'f') || ('A' ≤ c && c ≤ 'F')

/-- The four-hex-digit reader inside the \u escape of read_quoted_string. -/
def readHex4 : Nat → Lexer → List Char → (Except LexerError (List Char)) × Lexer
  | 0, lx, acc => (.ok acc, lx)
  | count + 1, lx, acc =>
    let lx := read_char lx
    match lx.current_char with
    | some hex_char =>
      if isHexDigitChar hex_char then
        readHex4 count lx (acc ++ [hex_char])
      else
        (.error { message := "Invalid Unicode escape sequence: \\u" ++ String.mk acc
                  line := lx.line, column := lx.column }, lx)
    | none =>
      (.error { message := "Unfinished Unicode escape sequence."
                line := lx.line, column := lx.column }, lx)

/-- Numeric value of a hex digit character. -/
def hexDigitVal (c : Char) : Nat :=
  if c.isDigit then c.toNat - 48
  else if 'a' ≤ c && c ≤ 'f' then c.toNat - 87
  else if 'A' ≤ c && c ≤ 'F' then c.toNat - 55
  else 0

/-- u32::from_str_radix(s, 16) on the collected hex digits (cannot fail:
    the digits were checked by readHex4). -/
def hexVal (digits : List Char) : Nat :=
  digits.foldl (fun acc c => acc * 16 + hexDigitVal c) 0

/-- Lexer::read_quoted_string: the loop after the opening quote is consumed. -/
def readQuoted (fuel : Nat) (lx : Lexer) (value : List Char) (escaped : Bool) :
    (Except LexerError Token) × Lexer :=
  match fuel with
  | 0 =>
    (.error { message := "Unterminated string.", line := lx.line, column := lx.column }, lx)
  | fuel + 1 =>
    match lx.current_char with
    | none =>
      (.error { message := "Unterminated string.", line := lx.line, column := lx.column }, lx)
    | some c =>
      if escaped then
        if c == 'u' then
          match readHex4 4 lx [] with
          | (.error e, lx) => (.error e, lx)
          | (.ok unicode_value, lx) =>
            let code_point := hexVal unicode_value
            if code_point < 0xD800 || (0xDFFF < code_point && code_point < 0x110000) then
              readQuoted fuel (read_char lx) (value ++ [Char.ofNat code_point]) false
            else
              (.error { message := "Invalid Unicode code point: U+" ++ String.mk unicode_value
                        line := lx.line, column := lx.column }, lx)
        else
          let decoded : Char :=
            if c == '"' then '"'
            else if c == '\\' then '\\'
            else if c == 'n' then '\n'
            else if c == 't' then '\t'
            else if c == 'r' then '\r'
            else c
          readQuoted fuel (read_char lx) (value ++ [decoded]) false
      else if c == '\\' then
        readQuoted fuel (read_char lx) value true
      else if c == '"' then
        (.ok (.QuotedArgument (String.mk value)), read_char lx)
      else
        readQuoted fuel (read_char lx) (value ++ [c]) false

/-- Lexer::read_quoted_string. -/
def read_quoted_string (fuel : Nat) (lx : Lexer) : (Except LexerError Token) × Lexer :=
  readQuoted fuel (read_char lx) [] false

/-- Lexer::read_argument. -/
def read_argument (fuel : Nat) (lx : Lexer) : (Except LexerError Token) × Lexer :=
  let start_position := lx.position
  let lx := readArg fuel lx
  let argument := sliceStr lx.chars start_position lx.position
  if argument.isEmpty then
    (.error { message := "Unrecognized characters: " ++
                (match lx.current_char with
                 | some c => "Some(" ++ String.mk [c] ++ ")"
                 | none => "None")
              line := lx.line, column := lx.column }, lx)
  else
    match argument with
    | "class" => (.ok .Class, lx)
    | "id" => (.ok .Id, lx)
    | "tag" => (.ok .Tag, lx)
    | "attr" => (.ok .Attr, lx)
    | "text" => (.ok .Text, lx)
    | "src" => (.ok .Src, lx)
    | "href" => (.ok .Href, lx)
    | _ => (.ok (.Argument argument), lx)
where
  /-- The argument-consuming loop of read_argument. -/
  readArg : Nat → Lexer → Lexer
  | 0, lx => lx
  | fuel + 1, lx =>
    match lx.current_char with
    | some c =>
      if isWhitespaceChar c || c == '>' || c == ',' || c == '"' || c == '@' || c == ':' then
        lx
      else
        readArg fuel (read_char lx)
    | none => lx

/-- Lexer::next_token. -/
def next_token (lx : Lexer) : (Except LexerError Token) × Lexer :=
  let fuel := lx.chars.length + 2
  let lx := skip_whitespace fuel lx
  match lx.current_char with
  | none => (.ok .EOF, lx)
  | some c =>
    if c == '>' then (.ok .Pipeline, read_char lx)
    else if c == ',' then (.ok .Comma, read_char lx)
    else if c == ':' then (.ok .Colon, read_char lx)
    else if c == '|' then (.ok .Union, read_char lx)
    else if c == '^' then (.ok .Difference, read_char lx)
    else if c == '&' then (.ok .Intersection, read_char lx)
    else if c == '@' then read_function fuel lx
    else if c == '"' then read_quoted_string fuel lx
    else if c == '~' then (.ok .Regex, read_char lx)
    else if c == '(' then (.ok .LeftParen, read_char lx)
    else if c == ')' then (.ok .RightParen, read_char lx)
    else if c.isDigit then read_number fuel lx
    else read_argument fuel lx

/-- Lexer::recover_from_error. -/
def recover_from_error (fuel : Nat) (lx : Lexer) : Lexer :=
  match fuel with
  | 0 => lx
  | fuel + 1 =>
    match lx.current_char with
    | some c =>
      if c == '>' || c == ',' || c == '"' || c == '@' || is_identifier_start c then lx
      else recover_from_error fuel (read_char lx)
    | none => lx

end Lexer

/-- The tokenize loop body (lexer.rs tokenize); fuel bounds the loop, and
    input.length + 2 always suffices because every iteration consumes at
    least one character of the input. -/
def tokenizeLoop (fuel : Nat) (lx : Lexer) (acc : List (Token × Nat × Nat)) :
    List (Token × Nat × Nat) :=
  match fuel with
  | 0 => acc
  | fuel + 1 =>
    let line := lx.line
    let column := lx.column
    match Lexer.next_token lx with
    | (.ok .EOF, _) => acc ++ [(.EOF, line, column)]
    | (.ok token, lx) => tokenizeLoop fuel lx (acc ++ [(token, line, column)])
    | (.error _, lx) =>
      tokenizeLoop fuel (Lexer.recover_from_error (lx.chars.length + 2) lx) acc

/-- lexer.rs tokenize. -/
def tokenize (input : String) : List (Token × Nat × Nat) :=
  tokenizeLoop (input.length + 2) (Lexer.new input) []

/- ===================== parser/mod.rs : parser state ===================== -/

/-- Parser state (parser/mod.rs Parser). -/
structure Parser where
  tokens : List (Token × Nat × Nat)
  position : Nat
  current_token : Option (Token × Nat × Nat)
  current_depth : Nat
  max_nesting_level : Nat
deriving Repr

namespace Parser

/-- Parser::read_token. -/
def read_token (p : Parser) : Parser :=
  match p.tokens[p.position]? with
  | some t => { p with current_token := some t, position := p.position + 1 }
  | none => { p with current_token := none }

/-- Parser::new. -/
def new (tokens : List (Token × Nat × Nat)) : Parser :=
  read_token { tokens := tokens, position := 0, current_token := none
               max_nesting_level := 100, current_depth := 0 }

/-- Parser::check_token. -/
def check_token (p : Parser) (expected : Token) : Bool :=
  match p.current_token with
  | some (token, _, _) => token == expected
  | none => false

/-- Parser::get_current_token_str. -/
def get_current_token_str (p : Parser) : String :=
  match p.current_token with
  | some (token, _, _) => token.display
  | none => "EOF"

/-- Parser::get_current_position. -/
def get_current_position (p : Parser) : Nat × Nat :=
  match p.current_token with
  | some (_, line, column) => (line, column)
  | none =>
    match p.tokens.getLast? with
    | some (_, line, column) => (line, column)
    | none => (1, 0)

/-- Parser::consume_token. -/
def consume_token (p : Parser) (expected : Token) : (Except ParseError Unit) × Parser :=
  if p.check_token expected then
    (.ok (), p.read_token)
  else
    let (line, column) := p.get_current_position
    (.error (ParseError.unexpected_token expected.display p.get_current_token_str line column), p)

/-- Parser::check_depth. -/
def check_depth (p : Parser) : Except ParseError Parser :=
  if p.current_depth ≥ p.max_nesting_level then
    let (line, column) := p.get_current_position
    .error (ParseError.nesting_too_deep p.max_nesting_level line column)
  else
    .ok { p with current_depth := p.current_depth + 1 }

/-- Parser::decrease_depth. -/
def decrease_depth (p : Parser) : Parser :=
  if p.current_depth > 0 then { p with current_depth := p.current_depth - 1 } else p

end Parser

/-- The error returned when the embedding's recursion fuel runs out; with the
    fuel supplied by parseSelector it is never reached on a terminating parse. -/
def fuelOut : ParseError := ParseError.syntax_error "recursion fuel exhausted" 0 0

/- ===================== parser/literal.rs ===================== -/

/-- parser/literal.rs parse_literal. The String, Bool, Float, Minus and
    LeftBracket arms match token constructors the lexer never emits; they are
    embedded as written and are dead at run time. -/
def parse_literal : Nat → Parser → (Except ParseError Literal) × Parser
  | 0, p => (.error fuelOut, p)
  | fuel + 1, p =>
    match p.current_token with
    | some (.String v, _, _) => (.ok (.str v), p.read_token)
    | some (.Bool v, _, _) => (.ok (.bool v), p.read_token)
    | some (.Number v, _, _) => (.ok (.int v), p.read_token)
    | some (.Float, _, _) => (.ok .float, p.read_token)
    | some (.Minus, _, _) =>
      let p := p.read_token
      (match p.current_token with
       | some (.Number v, _, _) => (.ok (.int (-(v : Int))), p.read_token)
       | some (.Float, _, _) => (.ok .float, p.read_token)
       | _ =>
         let (line, column) := p.get_current_position
         (.error (ParseError.unexpected_token "int or float" p.get_current_token_str line column), p))
    | some (.LeftBracket, _, _) =>
      let p := p.read_token
      (match p.check_depth with
       | .error e => (.error e, p)
       | .ok p =>
         match parse_literal fuel p with
         | (.error e, p) => (.error e, p)
         | (.ok first_value, p) =>
           match parseLiteralList fuel [first_value] p with
           | (.error e, p) => (.error e, p)
           | (.ok list, p) =>
             match p.current_token with
             | some (.RightBracket, _, _) => (.ok (.list list), (p.read_token).decrease_depth)
             | _ =>
               let (line, column) := p.get_current_position
               (.error (ParseError.unexpected_token "]" p.get_current_token_str line column), p))
    | _ =>
      let (line, column) := p.get_current_position
      (.error (ParseError.unexpected_token "str, int, float, and bool" p.get_current_token_str line column), p)
where
  /-- The comma-separated element loop of the list-literal arm. -/
  parseLiteralList : Nat → List Literal → Parser → (Except ParseError (List Literal)) × Parser
  | 0, _, p => (.error fuelOut, p)
  | fuel + 1, list, p =>
    match p.current_token with
    | some (.Comma, _, _) =>
      let p := p.read_token
      (match parse_literal fuel p with
       | (.error e, p) => (.error e, p)
       | (.ok value, p) => parseLiteralList fuel (list ++ [value]) p)
    | _ => (.ok list, p)

/- ===================== parser/element.rs ===================== -/

/-- parser/element.rs parse_selector_value. -/
def parse_selector_value (p : Parser) : (Except ParseError (Bool × String)) × Parser :=
  let (is_regex, p) :=
    if p.check_token .Regex then (true, p.read_token) else (false, p)
  match p.current_token with
  | some (.Argument value, _, _) => (.ok (is_regex, value), p.read_token)
  | some (.QuotedArgument value, _, _) => (.ok (is_regex, value), p.read_token)
  | _ =>
    let (line, column) := p.get_current_position
    (.error (ParseError.unexpected_token "selector argument" p.get_current_token_str line column), p)

/-- parser/element.rs parse_class_selector. -/
def parse_class_selector (p : Parser) : (Except ParseError ElementNode) × Parser :=
  match p.consume_token .Class with
  | (.error e, p) => (.error e, p)
  | (.ok _, p) =>
    match parse_selector_value p with
    | (.error e, p) => (.error e, p)
    | (.ok (is_regex, value), p) =>
      if value.isEmpty then
        let (line, column) := p.get_current_position
        (.error (ParseError.invalid_selector_value "empty value" line column), p)
      else
        (.ok (.Class value is_regex), p)

/-- parser/element.rs parse_id_selector. -/
def parse_id_selector (p : Parser) : (Except ParseError ElementNode) × Parser :=
  match p.consume_token .Id with
  | (.error e, p) => (.error e, p)
  | (.ok _, p) =>
    match parse_selector_value p with
    | (.error e, p) => (.error e, p)
    | (.ok (is_regex, value), p) =>
      if value.isEmpty then
        let (line, column) := p.get_current_position
        (.error (ParseError.invalid_selector_value "empty value" line column), p)
      else
        (.ok (.Id value is_regex), p)

/-- parser/element.rs parse_tag_selector. -/
def parse_tag_selector (p : Parser) : (Except ParseError ElementNode) × Parser :=
  match p.consume_token .Tag with
  | (.error e, p) => (.error e, p)
  | (.ok _, p) =>
    match parse_selector_value p with
    | (.error e, p) => (.error e, p)
    | (.ok (is_regex, value), p) =>
      if value.isEmpty then
        let (line, column) := p.get_current_position
        (.error (ParseError.invalid_selector_value "empty value" line column), p)
      else
        (.ok (.Tag value is_regex), p)

/-- parser/element.rs parse_attr_selector. -/
def parse_attr_selector (p : Parser) : (Except ParseError ElementNode) × Parser :=
  match p.consume_token .Attr with
  | (.error e, p) => (.error e, p)
  | (.ok _, p) =>
    match parse_selector_value p with
    | (.error e, p) => (.error e, p)
    | (.ok (_, attr_name), p) =>
      if attr_name.isEmpty then
        let (line, column) := p.get_current_position
        (.error (ParseError.invalid_selector_value "empty attribute name" line column), p)
      else
        match parse_selector_value p with
        | (.ok (is_regex, attr_value), p) => (.ok (.Attr attr_name (some attr_value) is_regex), p)
        | (.error _, p) => (.ok (.Attr attr_name none false), p)

/-- parser/element.rs parse_element. -/
def parse_element (p : Parser) : (Except ParseError SelectorNode) × Parser :=
  match p.current_token with
  | some (.Class, _, _) =>
    (match parse_class_selector p with
     | (.error e, p) => (.error e, p)
     | (.ok element_node, p) => (.ok (.ElementSelector element_node), p))
  | some (.Id, _, _) =>
    (match parse_id_selector p with
     | (.error e, p) => (.error e, p)
     | (.ok element_node, p) => (.ok (.ElementSelector element_node), p))
  | some (.Tag, _, _) =>
    (match parse_tag_selector p with
     | (.error e, p) => (.error e, p)
     | (.ok element_node, p) => (.ok (.ElementSelector element_node), p))
  | some (.Attr, _, _) =>
    (match parse_attr_selector p with
     | (.error e, p) => (.error e, p)
     | (.ok element_node, p) => (.ok (.ElementSelector element_node), p))
  | _ =>
    let (line, column) := p.get_current_position
    (.error (ParseError.unexpected_token "class, id, tag, or attr" p.get_current_token_str line column), p)

/- ===================== parser/text.rs ===================== -/

/-- parser/text.rs parse_attr_value_selector. This production is reachable
    only from a Pound token, which the lexer never emits (a historical
    snapshot of the grammar); embedded as written. -/
def parse_attr_value_selector (p : Parser) : (Except ParseError TextNode) × Parser :=
  match p.consume_token .Pound with
  | (.error e, p) => (.error e, p)
  | (.ok _, p) =>
    let (is_regexRes, p) :=
      if p.check_token .Tilde then
        match p.consume_token .Tilde with
        | (.error e, p) => ((Except.error e : Except ParseError Bool), p)
        | (.ok _, p) => (.ok true, p)
      else (.ok false, p)
    match is_regexRes with
    | .error e => (.error e, p)
    | .ok is_regex =>
      match p.current_token with
      | some (.String value, _, _) => (.ok (.AttrValue value is_regex), p.read_token)
      | _ =>
        let (line, column) := p.get_current_position
        (.error (ParseError.unexpected_token "attribute name" p.get_current_token_str line column), p)

/-- parser/text.rs parse_text. -/
def parse_text (p : Parser) : (Except ParseError SelectorNode) × Parser :=
  match p.current_token with
  | some (.Text, _, _) =>
    (match p.consume_token .Text with
     | (.error e, p) => (.error e, p)
     | (.ok _, p) => (.ok (.TextSelector .Text), p))
  | some (.Href, _, _) =>
    (match p.consume_token .Href with
     | (.error e, p) => (.error e, p)
     | (.ok _, p) => (.ok (.TextSelector .Href), p))
  | some (.Src, _, _) =>
    (match p.consume_token .Src with
     | (.error e, p) => (.error e, p)
     | (.ok _, p) => (.ok (.TextSelector .Src), p))
  | some (.Pound, _, _) =>
    (match parse_attr_value_selector p with
     | (.error e, p) => (.error e, p)
     | (.ok text_node, p) => (.ok (.TextSelector text_node), p))
  | _ =>
    let (line, column) := p.get_current_position
    (.error (ParseError.unexpected_token "text,href,src" p.get_current_token_str line column), p)

/- ===================== parser/index.rs ===================== -/

/-- The end-and-step tail of a range index (shared by both range arms of
    parse_index_selector in parser/index.rs). -/
def parseRangeTail (fuel : Nat) (p : Parser) :
    (Except ParseError (Option Literal × Option Literal)) × Parser :=
  let (endRes, p) :=
    match p.current_token with
    | some (.Colon, _, _) => ((Except.ok none : Except ParseError (Option Literal)), p.read_token)
    | _ =>
      match parse_literal fuel p with
      | (.error e, p) => (.error e, p)
      | (.ok v, p) => (.ok (some v), p)
  match endRes with
  | .error e => (.error e, p)
  | .ok end_index =>
    match p.current_token with
    | some (.Colon, _, _) =>
      let p := p.read_token
      (match parse_literal fuel p with
       | (.error e, p) => (.error e, p)
       | (.ok step, p) => (.ok (end_index, some step), p))
    | _ =>
      match parse_literal fuel p with
      | (.ok step, p) => (.ok (end_index, some step), p)
      | (.error _, p) => (.ok (end_index, none), p)

/-- The comma-separated index loop of the Multiple arm of
    parse_index_selector. -/
def parseIndexList : Nat → List Literal → Parser → (Except ParseError (List Literal)) × Parser
  | 0, _, p => (.error fuelOut, p)
  | fuel + 1, indexs, p =>
    match p.current_token with
    | some (.Comma, _, _) =>
      let p := p.read_token
      (match parse_literal fuel p with
       | (.error e, p) => (.error e, p)
       | (.ok index, p) => parseIndexList fuel (indexs ++ [index]) p)
    | _ => (.ok indexs, p)

/-- parser/index.rs parse_index_selector. -/
def parse_index_selector (fuel : Nat) (p : Parser) (node : Node) :
    (Except ParseError Node) × Parser :=
  if !p.check_token .Colon then
    let (line, column) := p.get_current_position
    (.error (ParseError.unexpected_token ":" p.get_current_token_str line column), p)
  else
    match p.consume_token .Colon with
    | (.error e, p) => (.error e, p)
    | (.ok _, p) =>
      match p.check_depth with
      | .error e => (.error e, p)
      | .ok p =>
        let (indexRes, p) :=
          match p.current_token with
          | some (.Colon, _, _) =>
            let p := p.read_token
            (match parseRangeTail fuel p with
             | (.error e, p) => ((Except.error e : Except ParseError IndexNode), p)
             | (.ok (end_index, step_value), p) =>
               (.ok (.Range none end_index step_value), p))
          | _ =>
            match parse_literal fuel p with
            | (.error e, p) => (.error e, p)
            | (.ok start_index, p) =>
              match p.current_token with
              | some (.Colon, _, _) =>
                let p := p.read_token
                (match parseRangeTail fuel p with
                 | (.error e, p) => (.error e, p)
                 | (.ok (end_index, step_value), p) =>
                   (.ok (.Range (some start_index) end_index step_value), p))
              | some (.Comma, _, _) =>
                let p := p.read_token
                (match parseIndexList fuel [start_index] p with
                 | (.error e, p) => (.error e, p)
                 | (.ok indexs, p) => (.ok (.Multiple indexs), p))
              | _ => (.ok (.Single start_index), p)
        match indexRes with
        | .error e => (.error e, p)
        | .ok index_node => (.ok (.IndexSelection node index_node), p.decrease_depth)

/-- parser/index.rs parse_index. -/
def parse_index (fuel : Nat) (p : Parser) (node : Node) : (Except ParseError Node) × Parser :=
  match p.current_token with
  | some (.Colon, _, _) => parse_index_selector fuel p node
  | _ => (.ok node, p)

/- ===================== parser/function.rs ===================== -/

/-- parser/function.rs parse_function_arguments. As in the source this
    returns the raw argument strings. -/
def parse_function_arguments (fuel : Nat) (p : Parser) :
    (Except ParseError (List String)) × Parser :=
  match p.current_token with
  | some (.QuotedArgument value, _, _) => argLoop fuel [value] p.read_token
  | some (.Argument value, _, _) => argLoop fuel [value] p.read_token
  | _ =>
    let (line, column) := p.get_current_position
    (.error (ParseError.unexpected_token "Function parameters" p.get_current_token_str line column), p)
where
  /-- The comma-separated argument loop. -/
  argLoop : Nat → List String → Parser → (Except ParseError (List String)) × Parser
  | 0, _, p => (.error fuelOut, p)
  | fuel + 1, arguments, p =>
    match p.current_token with
    | some (.Comma, _, _) =>
      (match p.consume_token .Comma with
       | (.error e, p) => (.error e, p)
       | (.ok _, p) =>
         match p.current_token with
         | some (.QuotedArgument value, _, _) => argLoop fuel (arguments ++ [value]) p.read_token
         | some (.Argument value, _, _) => argLoop fuel (arguments ++ [value]) p.read_token
         | _ =>
           let (line, column) := p.get_current_position
           (.error (ParseError.unexpected_token "function parameters" p.get_current_token_str line column), p))
    | _ => (.ok arguments, p)

/-- parser/function.rs parse_function. The source stores the argument
    strings of parse_function_arguments in FunctionNode.arguments, whose
    declared element type is Literal; they are carried as string literals. -/
def parse_function : Nat → Parser → Node → (Except ParseError Node) × Parser
  | 0, p, _ => (.error fuelOut, p)
  | fuel + 1, p, node =>
    match p.current_token with
    | some (.Function function_name, _, _) =>
      if function_name.isEmpty then
        let (line, column) := p.get_current_position
        (.error (ParseError.syntax_error "Function name cannot be empty." line column), p)
      else
        let p := p.read_token
        (match p.check_depth with
         | .error e => (.error e, p)
         | .ok p =>
           let (argsRes, p) :=
             match p.current_token with
             | some (.Comma, _, _) =>
               (match p.consume_token .Comma with
                | (.error e, p) => ((Except.error e : Except ParseError (List String)), p)
                | (.ok _, p) => parse_function_arguments fuel p)
             | _ => (.ok [], p)
           match argsRes with
           | .error e => (.error e, p)
           | .ok arguments =>
             parse_function fuel p.decrease_depth
               (.FunctionCall node { name := function_name, arguments := arguments.map .str }))
    | _ => (.ok node, p)

/- ============ parser/set.rs, parser/pipeline.rs, parser/basic.rs ============ -/

mutual

/-- parser/set.rs parse_set. -/
def parse_set : Nat → Parser → (Except ParseError Node) × Parser
  | 0, p => (.error fuelOut, p)
  | fuel + 1, p =>
    match parse_pipeline fuel p with
    | (.error e, p) => (.error e, p)
    | (.ok left, p) => parseSetLoop fuel left p

/-- The set-operator loop of parse_set. -/
def parseSetLoop : Nat → Node → Parser → (Except ParseError Node) × Parser
  | 0, _, p => (.error fuelOut, p)
  | fuel + 1, left, p =>
    match p.current_token with
    | some (.Union, _, _) =>
      (match p.consume_token .Union with
       | (.error e, p) => (.error e, p)
       | (.ok _, p) =>
         match p.check_depth with
         | .error e => (.error e, p)
         | .ok p =>
           match parse_pipeline fuel p with
           | (.error e, p) => (.error e, p)
           | (.ok right, p) =>
             parseSetLoop fuel (.SetOperation (.Union left right)) p.decrease_depth)
    | some (.Intersection, _, _) =>
      (match p.consume_token .Intersection with
       | (.error e, p) => (.error e, p)
       | (.ok _, p) =>
         match p.check_depth with
         | .error e => (.error e, p)
         | .ok p =>
           match parse_pipeline fuel p with
           | (.error e, p) => (.error e, p)
           | (.ok right, p) =>
             parseSetLoop fuel (.SetOperation (.Intersection left right)) p.decrease_depth)
    | some (.Difference, _, _) =>
      (match p.consume_token .Difference with
       | (.error e, p) => (.error e, p)
       | (.ok _, p) =>
         match p.check_depth with
         | .error e => (.error e, p)
         | .ok p =>
           match parse_pipeline fuel p with
           | (.error e, p) => (.error e, p)
           | (.ok right, p) =>
             parseSetLoop fuel (.SetOperation (.Difference left right)) p.decrease_depth)
    | _ => (.ok left, p)

/-- parser/pipeline.rs parse_pipeline. -/
def parse_pipeline : Nat → Parser → (Except ParseError Node) × Parser
  | 0, p => (.error fuelOut, p)
  | fuel + 1, p =>
    match parse_basic fuel p with
    | (.error e, p) => (.error e, p)
    | (.ok left, p) => parsePipelineLoop fuel left p

/-- The pipeline-operator loop of parse_pipeline. -/
def parsePipelineLoop : Nat → Node → Parser → (Except ParseError Node) × Parser
  | 0, _, p => (.error fuelOut, p)
  | fuel + 1, left, p =>
    match p.current_token with
    | some (.Pipeline, _, _) =>
      (match p.consume_token .Pipeline with
       | (.error e, p) => (.error e, p)
       | (.ok _, p) =>
         match p.check_depth with
         | .error e => (.error e, p)
         | .ok p =>
           match parse_basic fuel p with
           | (.error e, p) => (.error e, p)
           | (.ok right, p) =>
             parsePipelineLoop fuel (.Pipeline left right) p.decrease_depth)
    | _ => (.ok left, p)

/-- parser/basic.rs parse_basic. -/
def parse_basic : Nat → Parser → (Except ParseError Node) × Parser
  | 0, p => (.error fuelOut, p)
  | fuel + 1, p =>
    match p.current_token with
    | some (.Class, _, _) | some (.Id, _, _) | some (.Tag, _, _) | some (.Attr, _, _) =>
      (match parse_element p with
       | (.error e, p) => (.error e, p)
       | (.ok selector, p) => parse_index fuel p (.Selector selector))
    | some (.Text, _, _) | some (.Href, _, _) | some (.Src, _, _) | some (.Pound, _, _) =>
      (match parse_text p with
       | (.error e, p) => (.error e, p)
       | (.ok selector, p) =>
         match parse_index fuel p (.Selector selector) with
         | (.error e, p) => (.error e, p)
         | (.ok node, p) => parse_function fuel p node)
    | some (.LeftParen, _, _) =>
      (match p.consume_token .LeftParen with
       | (.error e, p) => (.error e, p)
       | (.ok _, p) =>
         match p.check_depth with
         | .error e => (.error e, p)
         | .ok p =>
           match parse_set fuel p with
           | (.error e, p) => (.error e, p)
           | (.ok expr, p) =>
             match p.current_token with
             | some (.RightParen, _, _) =>
               (match p.consume_token .RightParen with
                | (.error e, p) => (.error e, p)
                | (.ok _, p) => (.ok expr, p.decrease_depth))
             | _ =>
               let (line, column) := p.get_current_position
               (.error (ParseError.unexpected_token ("right parenthesis \u0027)\u0027")
                          p.get_current_token_str line column), p))
    | _ =>
      let (line, column) := p.get_current_position
      (.error (ParseError.unexpected_token "selector" p.get_current_token_str line column), p)

end

/-- Parser::parse (parser/mod.rs): parse a set expression, then require the
    token stream to be fully consumed up to the EOF token. -/
def Parser.parse (fuel : Nat) (p : Parser) : (Except ParseError Node) × Parser :=
  match parse_set fuel p with
  | (.error e, p) => (.error e, p)
  | (.ok node, p) =>
    match p.current_token with
    | some (.EOF, _, _) => (.ok node, p.read_token)
    | some (token, line, column) =>
      (.error (ParseError.unexpected_token "EOF" token.display line column), p)
    | none => (.ok node, p)

/-- Parser::try_recover (parser/mod.rs); the depth argument tracks the
    parenthesis depth of the scan. -/
def try_recover : Nat → Nat → Parser → (Except ParseError Unit) × Parser
  | 0, _, p => (.ok (), p)
  | fuel + 1, depth, p =>
    match p.current_token with
    | some (token, _, _) =>
      (match token with
       | .LeftParen => try_recover fuel (depth + 1) p.read_token
       | .RightParen =>
         if depth > 0 then try_recover fuel (depth - 1) p.read_token
         else (.ok (), p.read_token)
       | .Pipeline | .Union | .Intersection | .Difference =>
         if depth == 0 then (.ok (), p)
         else try_recover fuel depth p.read_token
       | .EOF => (.ok (), p)
       | _ => try_recover fuel depth p.read_token)
    | none => (.ok (), p)

/-- The fuel supplied to the fueled parser loops for a given token list;
    ample for any terminating recursive descent over it. -/
def parserFuel (tokens : List (Token × Nat × Nat)) : Nat :=
  4 * tokens.length + 420

/-- The syntactic part of parser/mod.rs parse (before semantic validation):
    tokenize, parse, and on failure make one recovery attempt, returning the
    original error if recovery does not fully succeed. -/
def parseSyntax (input : String) : Except ParseError Node :=
  let tokens := tokenize input
  let fuel := parserFuel tokens
  let p := Parser.new tokens
  match Parser.parse fuel p with
  | (.ok node, _) => .ok node
  | (.error parse_error, p) =>
    match try_recover fuel 0 p with
    | (.error _, _) => .error parse_error
    | (.ok _, p) =>
      match parse_set fuel p with
      | (.ok recovered_node, _) => .ok recovered_node
      | (.error _, _) => .error parse_error

/- ===================== parser/validate.rs ===================== -/

/-- Validator state (parser/validate.rs ValidationState). -/
structure ValidationState where
  has_text_selector : Bool
  text_selector_pos : Option (Nat × Nat)
  current_pos : Nat × Nat
deriving DecidableEq, Repr

/-- ValidationState::new. -/
def ValidationState.new : ValidationState :=
  { has_text_selector := false, text_selector_pos := none, current_pos := (0, 0) }

/-- ValidationState::mark_text_selector. -/
def ValidationState.mark_text_selector (s : ValidationState) : ValidationState :=
  { s with has_text_selector := true, text_selector_pos := some s.current_pos }

/-- ValidationState::can_add_element_selector. -/
def ValidationState.can_add_element_selector (s : ValidationState) : Bool :=
  !s.has_text_selector

namespace SyntaxValidator

/-- SyntaxValidator::visit_element (parser/validate.rs). -/
def visit_element (s : ValidationState) (_node : ElementNode) :
    Except ParseError ValidationState :=
  if !s.can_add_element_selector then
    let (line, column) := s.current_pos
    .error (ParseError.element_after_text_selector line column)
  else
    .ok s

/-- SyntaxValidator::visit_text (parser/validate.rs). -/
def visit_text (s : ValidationState) (_node : TextNode) :
    Except ParseError ValidationState :=
  if s.has_text_selector then
    let (line, column) := s.current_pos
    .error (ParseError.multiple_text_selectors line column)
  else
    .ok s.mark_text_selector

/-- SyntaxValidator::visit_selector (parser/validate.rs). -/
def visit_selector (s : ValidationState) (node : SelectorNode) :
    Except ParseError ValidationState :=
  match node with
  | .ElementSelector elem => visit_element s elem
  | .TextSelector text => visit_text s text

/-- SyntaxValidator::visit_index (parser/validate.rs): index selection does
    not change text-selector state. -/
def visit_index (s : ValidationState) (_node : IndexNode) :
    Except ParseError ValidationState :=
  .ok s

/-- SyntaxValidator::visit_function (parser/validate.rs): function calls do
    not change text-selector state. -/
def visit_function (s : ValidationState) (_node : FunctionNode) :
    Except ParseError ValidationState :=
  .ok s

mutual

/-- SyntaxValidator::visit_node (parser/validate.rs). -/
def visit_node : ValidationState → Node → Except ParseError ValidationState
  | s, .Selector selector => visit_selector s selector
  | s, .Pipeline left right =>
    (match visit_node s left with
     | .error e => .error e
     | .ok s => visit_node s right)
  | s, .SetOperation op => visit_set_operation s op
  | s, .IndexSelection inner idx =>
    (match visit_node s inner with
     | .error e => .error e
     | .ok s => visit_index s idx)
  | s, .FunctionCall inner func =>
    (match visit_node s inner with
     | .error e => .error e
     | .ok s => visit_function s func)

/-- SyntaxValidator::visit_set_operation (parser/validate.rs): the state is
    snapshotted before the left branch, restored before the right branch,
    and reset to a fresh state after the operation. -/
def visit_set_operation : ValidationState → SetOperationNode → Except ParseError ValidationState
  | s, .Union left right | s, .Intersection left right | s, .Difference left right =>
    let original_state := s
    match visit_node s left with
    | .error e => .error e
    | .ok _ =>
      match visit_node original_state right with
      | .error e => .error e
      | .ok _ => .ok ValidationState.new

end

/-- SyntaxValidator::validate (parser/validate.rs). -/
def validate (node : Node) : Except ParseError Unit :=
  match visit_node ValidationState.new node with
  | .error e => .error e
  | .ok _ => .ok ()

end SyntaxValidator

/-- parser/mod.rs parse: tokenize, parse with one recovery attempt, then run
    the semantic validator. The println! debug trace in the source is I/O and
    is not part of the returned value. -/
def parse (input : String) : Except ParseError Node :=
  match parseSyntax input with
  | .error e => .error e
  | .ok node =>
    match SyntaxValidator.validate node with
    | .error e => .error e
    | .ok _ => .ok node

/- ========== Specification-side path predicate for text selectors ========== -/

mutual

/-- Modelled from the spec: the path walk behind the rule that at most one
    text-family selector (Text, Href, Src, AttrValue) may occur per path.
    Given whether a text selector has already been seen on the current path,
    returns (a second text selector occurs on some path, a text selector has
    been seen at the end of the walk). Pipelines and index/function suffixes
    inherit the path state; the two branches of a set operation are
    independent paths and the state is reset after the operation. -/
def specTextScan : Bool → Node → Bool × Bool
  | seen, .Selector (.TextSelector _) => (seen, true)
  | seen, .Selector (.ElementSelector _) => (false, seen)
  | seen, .Pipeline left right =>
    ((specTextScan seen left).1 || (specTextScan (specTextScan seen left).2 right).1,
     (specTextScan (specTextScan seen left).2 right).2)
  | seen, .SetOperation op => specTextScanSet seen op
  | seen, .IndexSelection inner _ => specTextScan seen inner
  | seen, .FunctionCall inner _ => specTextScan seen inner

/-- Modelled from the spec: the set-operation case of specTextScan. -/
def specTextScanSet : Bool → SetOperationNode → Bool × Bool
  | seen, .Union left right | seen, .Intersection left right | seen, .Difference left right =>
    ((specTextScan seen left).1 || (specTextScan seen right).1, false)

end

/-- Modelled from the spec: the AST contains a second text-family selector on
    the same path. -/
def specSecondTextOnPath (node : Node) : Bool :=
  (specTextScan false node).1

/- ============== The external DOM tree (markup5ever_rcdom) ============== -/

/-- Node payloads of the external DOM library (markup5ever NodeData), at the
    interface the engine consumes: kind, tag name, ordered attribute list,
    text payload. -/
inductive HtmlData where
  | Document
  | Element (name : String) (attrs : List (String × String))
  | Text (contents : String)
  | Comment
  | ProcessingInstruction
  | Doctype
deriving DecidableEq, Repr

/-- A node of the external DOM tree. The nid field models the node's memory
    address: the stable identity the engine derives its deduplication token
    from (interpreter/result.rs NodeHandle::from_html5). -/
inductive HtmlNode where
  | mk (nid : Nat) (data : HtmlData) (children : List HtmlNode)

/-- The identity (modelled address) of a DOM node. -/
def HtmlNode.nid : HtmlNode → Nat
  | .mk nid _ _ => nid

/-- The payload of a DOM node. -/
def HtmlNode.data : HtmlNode → HtmlData
  | .mk _ data _ => data

/-- The ordered child list of a DOM node. -/
def HtmlNode.children : HtmlNode → List HtmlNode
  | .mk _ _ children => children

/- ===================== interpreter/result.rs ===================== -/

/-- Lowercase hexadecimal rendering of a Nat (the {:#x} format without the
    0x prefix). -/
def hexStr (n : Nat) : String := String.mk (Nat.toDigits 16 n)

/-- HTML node handle (interpreter/result.rs NodeHandle). -/
structure NodeHandle where
  node : Option HtmlNode
  node_id : String

/-- NodeHandle::from_html5: the identity token is derived from the underlying
    node's address (here its nid), formatted as node-{:#x}. -/
def NodeHandle.from_html5 (handle : HtmlNode) : NodeHandle :=
  { node := some handle, node_id := "node-0x" ++ hexStr handle.nid }

/-- NodeHandle::id. -/
def NodeHandle.id (h : NodeHandle) : String := h.node_id

/-- NodeHandle::is_element. -/
def NodeHandle.is_element (h : NodeHandle) : Bool :=
  match h.node with
  | some handle =>
    (match handle.data with
     | .Element _ _ => true
     | _ => false)
  | none => false

/-- NodeHandle::is_text. -/
def NodeHandle.is_text (h : NodeHandle) : Bool :=
  match h.node with
  | some handle =>
    (match handle.data with
     | .Text _ => true
     | _ => false)
  | none => false

/-- Selection result (interpreter/result.rs SelectionResult). Text values are
    carried as UTF-8 byte sequences, the representation a Rust String holds
    and the one the slice function indexes into. -/
inductive SelectionResult where
  | Nodes (nodes : List NodeHandle)
  | Texts (texts : List RStr)

/-- SelectionResult::with_nodes. -/
def SelectionResult.with_nodes (nodes : List NodeHandle) : SelectionResult := .Nodes nodes

/-- SelectionResult::with_texts. -/
def SelectionResult.with_texts (texts : List RStr) : SelectionResult := .Texts texts

/-- SelectionResult::is_nodes. -/
def SelectionResult.is_nodes : SelectionResult → Bool
  | .Nodes _ => true
  | .Texts _ => false

/-- SelectionResult::is_texts. -/
def SelectionResult.is_texts : SelectionResult → Bool
  | .Nodes _ => false
  | .Texts _ => true

/-- SelectionResult::nodes. -/
def SelectionResult.nodesE : SelectionResult → Except InterpreterError (List NodeHandle)
  | .Nodes nodes => .ok nodes
  | _ => .error (.ExecutionError "Result type is not nodes")

/-- SelectionResult::texts. -/
def SelectionResult.textsE : SelectionResult → Except InterpreterError (List RStr)
  | .Texts texts => .ok texts
  | _ => .error (.ExecutionError "Result type is not texts")

/-- SelectionResult::count. -/
def SelectionResult.count : SelectionResult → Nat
  | .Nodes nodes => nodes.length
  | .Texts texts => texts.length

/-- SelectionResult::is_empty. -/
def SelectionResult.is_empty : SelectionResult → Bool
  | .Nodes nodes => nodes.isEmpty
  | .Texts texts => texts.isEmpty

/- ============ The external regex collaborator (regex crate) ============ -/

/-- Modelled from the spec: pattern compilation in the external regex crate
    (regex::Regex::new). Under the literal-pattern model below every pattern
    compiles; the failure arms it guards in html.rs are embedded as written
    and are unreachable under this model. No theorem depends on the choice. -/
def regexCompileOk (_pattern : String) : Bool := true

/-- Modelled from the spec: regex is_match of the external regex crate is a
    search (not a full match); modelled for literal patterns as substring
    occurrence. No theorem depends on this choice. -/
def regexIsMatch (pattern s : String) : Bool := decide (List.IsInfix pattern.data s.data)

/- ===================== interpreter/html.rs ===================== -/

/-- The error built when a NodeHandle lacks its underlying reference
    (interpreter/html.rs, several sites). -/
def noRefError : InterpreterError :=
  .ExecutionError "Node does not have a valid HTML reference"

/-- interpreter/html.rs get_children: wrap each child as a fresh NodeHandle. -/
def get_children (node : NodeHandle) : Except InterpreterError (List NodeHandle) :=
  match node.node with
  | none => .error noRefError
  | some handle => .ok (handle.children.map NodeHandle.from_html5)

mutual

/-- The recursion of interpreter/html.rs extract_text over the underlying
    tree: a text node yields its payload, an element node concatenates the
    text of its children, every other kind yields the empty string. Child
    handles produced by get_children always carry their reference, so the
    recursive calls of the source never hit its error arm. -/
def extractTextN : HtmlNode → String
  | .mk _ (.Text contents) _ => contents
  | .mk _ (.Element _ _) children => extractTextL children
  | _ => ""

/-- Text concatenation over a child list, in document order. -/
def extractTextL : List HtmlNode → String
  | [] => ""
  | child :: rest => extractTextN child ++ extractTextL rest

end

/-- interpreter/html.rs extract_text. -/
def extract_text (node : NodeHandle) : Except InterpreterError String :=
  match node.node with
  | none => .error noRefError
  | some handle => .ok (extractTextN handle)

/-- Rust str::split_whitespace on the characters of a string. -/
def splitWsAux : List Char → List Char → List String
  | [], cur => if cur.isEmpty then [] else [String.mk cur.reverse]
  | c :: cs, cur =>
    if c.isWhitespace then
      if cur.isEmpty then splitWsAux cs []
      else String.mk cur.reverse :: splitWsAux cs []
    else splitWsAux cs (c :: cur)

/-- Rust str::split_whitespace (collected). -/
def split_whitespace (s : String) : List String := splitWsAux s.data []

/-- The class-attribute scan of interpreter/html.rs find_by_class: the first
    class attribute any of whose whitespace-split tokens matches stops the
    scan. -/
def classAttrsMatch (class_name : String) ( is_regex : Bool) :
    List (String × String) → Except InterpreterError Bool
  | [] => .ok false
  | (name, value) :: rest =>
    if name == "class" then
      let classes := split_whitespace value
      let matchRes : Except InterpreterError Bool :=
        if is_regex then
          if regexCompileOk class_name then
            .ok (classes.any (fun c => regexIsMatch class_name c))
          else
            .error (.ExecutionError ("Invalid regex pattern: " ++ class_name))
        else
          .ok (classes.contains class_name)
      match matchRes with
      | .error e => .error e
      | .ok is_match =>
        if is_match then .ok true else classAttrsMatch class_name is_regex rest
    else
      classAttrsMatch class_name is_regex rest

/-- The id-attribute scan of interpreter/html.rs find_by_id. -/
def idAttrsMatch (id_value : String) ( is_regex : Bool) :
    List (String × String) → Except InterpreterError Bool
  | [] => .ok false
  | (name, current_id) :: rest =>
    if name == "id" then
      let matchRes : Except InterpreterError Bool :=
        if is_regex then
          if regexCompileOk id_value then
            .ok (regexIsMatch id_value current_id)
          else
            .error (.ExecutionError ("Invalid regex pattern: " ++ id_value))
        else
          .ok (current_id == id_value)
      match matchRes with
      | .error e => .error e
      | .ok is_match =>
        if is_match then .ok true else idAttrsMatch id_value is_regex rest
    else
      idAttrsMatch id_value is_regex rest

/-- The attribute scan of interpreter/html.rs find_by_attr: name must match,
    and when an expected value is supplied it must match on the same
    attribute. -/
def attrAttrsMatch (attr_name : String) (attr_value : Option String) ( is_regex : Bool) :
    List (String × String) → Except InterpreterError Bool
  | [] => .ok false
  | (current_name, current_value) :: rest =>
    let nameRes : Except InterpreterError Bool :=
      if is_regex then
        if regexCompileOk attr_name then
          .ok (regexIsMatch attr_name current_name)
        else
          .error (.ExecutionError ("Invalid regex pattern: " ++ attr_name))
      else
        .ok (current_name == attr_name)
    match nameRes with
    | .error e => .error e
    | .ok name_match =>
      let valueRes : Except InterpreterError Bool :=
        match attr_value with
        | some value =>
          if is_regex then
            if regexCompileOk value then
              .ok (regexIsMatch value current_value)
            else
              .error (.ExecutionError ("Invalid regex pattern: " ++ value))
          else
            .ok (current_value == value)
        | none => .ok true
      match valueRes with
      | .error e => .error e
      | .ok value_match =>
        if name_match && value_match then .ok true
        else attrAttrsMatch attr_name attr_value is_regex rest

mutual

/-- interpreter/html.rs find_by_tag over the underlying tree (child handles
    always carry their reference, so the source's handle check cannot fail
    below the root). -/
def findByTagN (tag_name : String) ( is_regex : Bool) :
    HtmlNode → Except InterpreterError (List NodeHandle)
  | .mk nid data children =>
    let ownRes : Except InterpreterError (List NodeHandle) :=
      match data with
      | .Element name _ =>
        let matchRes : Except InterpreterError Bool :=
          if is_regex then
            if regexCompileOk tag_name then
              .ok (regexIsMatch tag_name name)
            else
              .error (.ExecutionError ("Invalid regex pattern: " ++ tag_name))
          else
            .ok (name == tag_name)
        (match matchRes with
         | .error e => .error e
         | .ok is_match =>
           .ok (if is_match then [NodeHandle.from_html5 (.mk nid data children)] else []))
      | _ => .ok []
    match ownRes with
    | .error e => .error e
    | .ok own =>
      match findByTagL tag_name is_regex children with
      | .error e => .error e
      | .ok rest => .ok (own ++ rest)

/-- Child recursion of find_by_tag, in document order. -/
def findByTagL (tag_name : String) ( is_regex : Bool) :
    List HtmlNode → Except InterpreterError (List NodeHandle)
  | [] => .ok []
  | child :: rest =>
    match findByTagN tag_name is_regex child with
    | .error e => .error e
    | .ok child_results =>
      match findByTagL tag_name is_regex rest with
      | .error e => .error e
      | .ok more => .ok (child_results ++ more)

end

/-- interpreter/html.rs find_by_tag. -/
def find_by_tag (node : NodeHandle) (tag_name : String) ( is_regex : Bool) :
    Except InterpreterError (List NodeHandle) :=
  match node.node with
  | none => .error noRefError
  | some handle => findByTagN tag_name is_regex handle

mutual

/-- interpreter/html.rs find_by_class over the underlying tree. -/
def findByClassN (class_name : String) ( is_regex : Bool) :
    HtmlNode → Except InterpreterError (List NodeHandle)
  | .mk nid data children =>
    let ownRes : Except InterpreterError (List NodeHandle) :=
      match data with
      | .Element _ attrs =>
        (match classAttrsMatch class_name is_regex attrs with
         | .error e => .error e
         | .ok is_match =>
           .ok (if is_match then [NodeHandle.from_html5 (.mk nid data children)] else []))
      | _ => .ok []
    match ownRes with
    | .error e => .error e
    | .ok own =>
      match findByClassL class_name is_regex children with
      | .error e => .error e
      | .ok rest => .ok (own ++ rest)

/-- Child recursion of find_by_class, in document order. -/
def findByClassL (class_name : String) ( is_regex : Bool) :
    List HtmlNode → Except InterpreterError (List NodeHandle)
  | [] => .ok []
  | child :: rest =>
    match findByClassN class_name is_regex child with
    | .error e => .error e
    | .ok child_results =>
      match findByClassL class_name is_regex rest with
      | .error e => .error e
      | .ok more => .ok (child_results ++ more)

end

/-- interpreter/html.rs find_by_class. -/
def find_by_class (node : NodeHandle) (class_name : String) ( is_regex : Bool) :
    Except InterpreterError (List NodeHandle) :=
  match node.node with
  | none => .error noRefError
  | some handle => findByClassN class_name is_regex handle

mutual

/-- interpreter/html.rs find_by_id over the underlying tree. -/
def findByIdN (id_value : String) ( is_regex : Bool) :
    HtmlNode → Except InterpreterError (List NodeHandle)
  | .mk nid data children =>
    let ownRes : Except InterpreterError (List NodeHandle) :=
      match data with
      | .Element _ attrs =>
        (match idAttrsMatch id_value is_regex attrs with
         | .error e => .error e
         | .ok is_match =>
           .ok (if is_match then [NodeHandle.from_html5 (.mk nid data children)] else []))
      | _ => .ok []
    match ownRes with
    | .error e => .error e
    | .ok own =>
      match findByIdL id_value is_regex children with
      | .error e => .error e
      | .ok rest => .ok (own ++ rest)

/-- Child recursion of find_by_id, in document order. -/
def findByIdL (id_value : String) ( is_regex : Bool) :
    List HtmlNode → Except InterpreterError (List NodeHandle)
  | [] => .ok []
  | child :: rest =>
    match findByIdN id_value is_regex child with
    | .error e => .error e
    | .ok child_results =>
      match findByIdL id_value is_regex rest with
      | .error e => .error e
      | .ok more => .ok (child_results ++ more)

end

/-- interpreter/html.rs find_by_id. -/
def find_by_id (node : NodeHandle) (id_value : String) ( is_regex : Bool) :
    Except InterpreterError (List NodeHandle) :=
  match node.node with
  | none => .error noRefError
  | some handle => findByIdN id_value is_regex handle

mutual

/-- interpreter/html.rs find_by_attr over the underlying tree. -/
def findByAttrN (attr_name : String) (attr_value : Option String) ( is_regex : Bool) :
    HtmlNode → Except InterpreterError (List NodeHandle)
  | .mk nid data children =>
    let ownRes : Except InterpreterError (List NodeHandle) :=
      match data with
      | .Element _ attrs =>
        (match attrAttrsMatch attr_name attr_value is_regex attrs with
         | .error e => .error e
         | .ok is_match =>
           .ok (if is_match then [NodeHandle.from_html5 (.mk nid data children)] else []))
      | _ => .ok []
    match ownRes with
    | .error e => .error e
    | .ok own =>
      match findByAttrL attr_name attr_value is_regex children with
      | .error e => .error e
      | .ok rest => .ok (own ++ rest)

/-- Child recursion of find_by_attr, in document order. -/
def findByAttrL (attr_name : String) (attr_value : Option String) ( is_regex : Bool) :
    List HtmlNode → Except InterpreterError (List NodeHandle)
  | [] => .ok []
  | child :: rest =>
    match findByAttrN attr_name attr_value is_regex child with
    | .error e => .error e
    | .ok child_results =>
      match findByAttrL attr_name attr_value is_regex rest with
      | .error e => .error e
      | .ok more => .ok (child_results ++ more)

end

/-- interpreter/html.rs find_by_attr. -/
def find_by_attr (node : NodeHandle) (attr_name : String) (attr_value : Option String)
    ( is_regex : Bool) : Except InterpreterError (List NodeHandle) :=
  match node.node with
  | none => .error noRefError
  | some handle => findByAttrN attr_name attr_value is_regex handle

/-- The attribute scan of interpreter/html.rs get_attribute. -/
def getAttrScan (attr_name : String) ( is_regex : Bool) :
    List (String × String) → Except InterpreterError (Option String)
  | [] => .ok none
  | (current_name, value) :: rest =>
    let nameRes : Except InterpreterError Bool :=
      if is_regex then
        if regexCompileOk attr_name then
          .ok (regexIsMatch attr_name current_name)
        else
          .error (.ExecutionError ("Invalid regex pattern: " ++ attr_name))
      else
        .ok (current_name == attr_name)
    match nameRes with
    | .error e => .error e
    | .ok name_match =>
      if name_match then .ok (some value)
      else getAttrScan attr_name is_regex rest

/-- interpreter/html.rs get_attribute. -/
def get_attribute (node : NodeHandle) (attr_name : String) ( is_regex : Bool) :
    Except InterpreterError (Option String) :=
  match node.node with
  | none => .error noRefError
  | some handle =>
    if !node.is_element then .ok none
    else
      match handle.data with
      | .Element _ attrs => getAttrScan attr_name is_regex attrs
      | _ => .ok none

/-- interpreter/html.rs get_href. -/
def get_href (node : NodeHandle) : Except InterpreterError (Option String) :=
  get_attribute node "href" false

/-- interpreter/html.rs get_src. -/
def get_src (node : NodeHandle) : Except InterpreterError (Option String) :=
  get_attribute node "src" false

/-- HashMap::insert over the modelled attribute map: a later attribute with
    the same name overwrites the earlier value. -/
def hashMapInsert (m : List (String × String)) (name value : String) :
    List (String × String) :=
  if m.any (fun p => p.1 == name) then
    m.map (fun p => if p.1 == name then (name, value) else p)
  else
    m ++ [(name, value)]

/-- interpreter/html.rs get_all_attributes. HashMap iteration order is
    external nondeterminism; the only consumer (select_by_attr) checks
    whether any value matches, which is order-independent. -/
def get_all_attributes (node : NodeHandle) : Except InterpreterError (List (String × String)) :=
  match node.node with
  | none => .error noRefError
  | some handle =>
    match handle.data with
    | .Element _ attrs =>
      .ok (attrs.foldl (fun m p => hashMapInsert m p.1 p.2) [])
    | _ => .ok []

/-- Display of an InterpreterError (interpreter/error.rs Display impl),
    used where the source formats an error into another error's message. -/
def InterpreterError.display : InterpreterError → String
  | .HtmlParseError msg => "HTML parsing error: " ++ msg
  | .ParserError msg => "Syntax parsing error: " ++ msg
  | .NodeSelectionError msg => "Node selection error: " ++ msg
  | .TextExtractionError msg => "Text extraction error: " ++ msg
  | .AttributeExtractionError msg => "Attribute extraction error: " ++ msg
  | .IndexOutOfBounds idx len =>
    "Index out of bounds: index " ++ toString idx ++ " is out of range 0-" ++ toString (len - 1)
  | .InvalidStep step => "Invalid step: step cannot be " ++ toString step
  | .InvalidRegex msg => "Invalid regular expression: " ++ msg
  | .UnknownFunction name => "Unknown function: " ++ name
  | .MissingArgument msg => "Missing argument: " ++ msg
  | .InvalidArgument msg => "Invalid argument: " ++ msg
  | .ExecutionError msg => "Execution error: " ++ msg
  | .ResultLimitExceeded limit =>
    "Result limit exceeded: more than " ++ toString limit ++ " results"

/- ===================== interpreter/mod.rs : state ===================== -/

/-- Interpreter state (interpreter/mod.rs Interpreter). -/
structure Interpreter where
  document : NodeHandle
  result : SelectionResult
  is_first_interpret : Bool

/-- The state Interpreter::new builds once the external HTML parser has
    produced the document root (interpreter/mod.rs): the current result is
    the root alone and the first-interpretation flag is set. -/
def Interpreter.ofDocument (document : NodeHandle) : Interpreter :=
  { document := document
    result := SelectionResult.with_nodes [document]
    is_first_interpret := true }

/-- Interpreter::reset_selection. -/
def Interpreter.reset_selection (it : Interpreter) : Interpreter :=
  { it with result := SelectionResult.with_nodes [it.document] }

/- ===================== interpreter/element.rs ===================== -/

/-- interpreter/element.rs select_by_class: matches per current node,
    concatenated in current-node order. -/
def select_by_class : List NodeHandle → String → Bool → Except InterpreterError (List NodeHandle)
  | [], _, _ => .ok []
  | node :: rest, class_name, is_regex =>
    match find_by_class node class_name is_regex with
    | .error e => .error e
    | .ok matched =>
      match select_by_class rest class_name is_regex with
      | .error e => .error e
      | .ok more => .ok (matched ++ more)

/-- interpreter/element.rs select_by_id. -/
def select_by_id : List NodeHandle → String → Bool → Except InterpreterError (List NodeHandle)
  | [], _, _ => .ok []
  | node :: rest, id, is_regex =>
    match find_by_id node id is_regex with
    | .error e => .error e
    | .ok matched =>
      match select_by_id rest id is_regex with
      | .error e => .error e
      | .ok more => .ok (matched ++ more)

/-- interpreter/element.rs select_by_tag. -/
def select_by_tag : List NodeHandle → String → Bool → Except InterpreterError (List NodeHandle)
  | [], _, _ => .ok []
  | node :: rest, tag_name, is_regex =>
    match find_by_tag node tag_name is_regex with
    | .error e => .error e
    | .ok matched =>
      match select_by_tag rest tag_name is_regex with
      | .error e => .error e
      | .ok more => .ok (matched ++ more)

/-- The any-attribute-value check of the special branch of select_by_attr
    (empty attribute name with a supplied value): a regex that fails to
    compile counts as no match rather than an error. -/
def anyAttrValueMatch (attributes : List (String × String)) (target_value : String)
    ( is_regex : Bool) : Bool :=
  attributes.any (fun p =>
    if is_regex then
      if regexCompileOk target_value then regexIsMatch target_value p.2 else false
    else
      p.2 == target_value)

mutual

/-- The special branch of interpreter/element.rs select_by_attr on one
    underlying node: check every attribute value of the node against the
    target, then recurse into the children independently. -/
def selectByAttrValN (target_value : String) ( is_regex : Bool) : HtmlNode → List NodeHandle
  | .mk nid data children =>
    let attributes :=
      match data with
      | .Element _ attrs => attrs.foldl (fun m p => hashMapInsert m p.1 p.2) []
      | _ => []
    let found := anyAttrValueMatch attributes target_value is_regex
    (if found then [NodeHandle.from_html5 (.mk nid data children)] else [])
      ++ selectByAttrValL target_value is_regex children

/-- Child recursion of the special branch of select_by_attr. -/
def selectByAttrValL (target_value : String) ( is_regex : Bool) : List HtmlNode → List NodeHandle
  | [] => []
  | child :: rest =>
    selectByAttrValN target_value is_regex child ++ selectByAttrValL target_value is_regex rest

end

/-- The special branch of select_by_attr over the current selection; the
    underlying-reference check of get_all_attributes is the only failure. -/
def selectByAttrSpecial : List NodeHandle → String → Bool → Except InterpreterError (List NodeHandle)
  | [], _, _ => .ok []
  | node :: rest, target_value, is_regex =>
    match node.node with
    | none => .error noRefError
    | some handle =>
      match selectByAttrSpecial rest target_value is_regex with
      | .error e => .error e
      | .ok more => .ok (selectByAttrValN target_value is_regex handle ++ more)

/-- The regular branch of interpreter/element.rs select_by_attr. -/
def selectByAttrPlain : List NodeHandle → String → Option String → Bool →
    Except InterpreterError (List NodeHandle)
  | [], _, _, _ => .ok []
  | node :: rest, attr_name, attr_value, is_regex =>
    match find_by_attr node attr_name attr_value is_regex with
    | .error e => .error e
    | .ok matched =>
      match selectByAttrPlain rest attr_name attr_value is_regex with
      | .error e => .error e
      | .ok more => .ok (matched ++ more)

/-- interpreter/element.rs select_by_attr. -/
def select_by_attr (current_selection : List NodeHandle) (attr_name : String)
    (attr_value : Option String) ( is_regex : Bool) :
    Except InterpreterError (List NodeHandle) :=
  if attr_name.isEmpty && attr_value.isSome then
    selectByAttrSpecial current_selection (attr_value.getD "") is_regex
  else
    selectByAttrPlain current_selection attr_name attr_value is_regex

/-- interpreter/element.rs apply_element_selector, as a pure function from
    the current result to the next one (the source writes it.result). -/
def apply_element_selector (elem_node : ElementNode) (res : SelectionResult) :
    Except InterpreterError SelectionResult :=
  match res.nodesE with
  | .error e => .error e
  | .ok nodes =>
    let resultE :=
      match elem_node with
      | .Class class_name is_regex => select_by_class nodes class_name is_regex
      | .Id id is_regex => select_by_id nodes id is_regex
      | .Tag tag_name is_regex => select_by_tag nodes tag_name is_regex
      | .Attr attr_name attr_value is_regex =>
        select_by_attr nodes attr_name attr_value is_regex
    match resultE with
    | .error e => .error e
    | .ok result => .ok (SelectionResult.with_nodes result)

/- ===================== interpreter/text.rs ===================== -/

/-- interpreter/text.rs extract_text_content (values as UTF-8 bytes). -/
def extract_text_content : List NodeHandle → Except InterpreterError (List RStr)
  | [] => .ok []
  | node :: rest =>
    match extract_text node with
    | .error err =>
      .error (.TextExtractionError ("Unable to extract text content: " ++ err.display))
    | .ok text =>
      match extract_text_content rest with
      | .error e => .error e
      | .ok more => .ok (strBytes text :: more)

/-- interpreter/text.rs extract_href_values: nodes lacking the attribute
    contribute nothing. -/
def extract_href_values : List NodeHandle → Except InterpreterError (List RStr)
  | [] => .ok []
  | node :: rest =>
    match get_href node with
    | .error err =>
      .error (.AttributeExtractionError ("Unable to extract href attribute: " ++ err.display))
    | .ok none =>
      extract_href_values rest
    | .ok (some href) =>
      match extract_href_values rest with
      | .error e => .error e
      | .ok more => .ok (strBytes href :: more)

/-- interpreter/text.rs extract_src_values. -/
def extract_src_values : List NodeHandle → Except InterpreterError (List RStr)
  | [] => .ok []
  | node :: rest =>
    match get_src node with
    | .error err =>
      .error (.AttributeExtractionError ("Unable to extract src attribute: " ++ err.display))
    | .ok none =>
      extract_src_values rest
    | .ok (some src) =>
      match extract_src_values rest with
      | .error e => .error e
      | .ok more => .ok (strBytes src :: more)

/-- interpreter/text.rs extract_attr_values (its error message says src, as
    in the source). -/
def extract_attr_values : List NodeHandle → String → Bool → Except InterpreterError (List RStr)
  | [], _, _ => .ok []
  | node :: rest, name, is_regex =>
    match get_attribute node name is_regex with
    | .error err =>
      .error (.AttributeExtractionError ("Unable to extract src attribute: " ++ err.display))
    | .ok none =>
      extract_attr_values rest name is_regex
    | .ok (some src) =>
      match extract_attr_values rest name is_regex with
      | .error e => .error e
      | .ok more => .ok (strBytes src :: more)

/-- interpreter/text.rs apply_text_selector, as a pure function from the
    current result to the next one. -/
def apply_text_selector (text_node : TextNode) (res : SelectionResult) :
    Except InterpreterError SelectionResult :=
  match res.nodesE with
  | .error e => .error e
  | .ok nodes =>
    let resultE :=
      match text_node with
      | .Text => extract_text_content nodes
      | .Href => extract_href_values nodes
      | .Src => extract_src_values nodes
      | .AttrValue name is_regex => extract_attr_values nodes name is_regex
    match resultE with
    | .error e => .error e
    | .ok result => .ok (SelectionResult.with_texts result)

/- ===================== interpreter/function.rs ===================== -/

/-- The whitespace bytes recognized by the ASCII model of Rust's Unicode
    str::trim (an external standard-library classification; no claim
    depends on non-ASCII whitespace). -/
def isWsByte (b : Nat) : Bool :=
  b == 9 || b == 10 || b == 11 || b == 12 || b == 13 || b == 32

/-- str::trim on bytes: strip leading and trailing whitespace. -/
def trimBytes (t : RStr) : RStr :=
  ((t.dropWhile isWsByte).reverse.dropWhile isWsByte).reverse

/-- interpreter/function.rs trim. -/
def trim (texts : List RStr) : List RStr :=
  texts.map trimBytes

/-- The scan of str::replace on bytes; the fuel is the length of the scanned
    string, which suffices because the pattern is nonempty at every call. -/
def replaceGo (pat rep : RStr) : Nat → RStr → RStr
  | 0, s => s
  | _, [] => []
  | fuel + 1, b :: rest =>
    if pat.isPrefixOf (b :: rest) then
      rep ++ replaceGo pat rep fuel ((b :: rest).drop pat.length)
    else
      b :: replaceGo pat rep fuel rest

/-- Rust str::replace (all occurrences) on bytes. The empty-pattern case
    (match at every char boundary) is external std behavior no claim
    touches; it is modelled as the identity. -/
def replaceAllBytes (s pat rep : RStr) : RStr :=
  if pat.isEmpty then s else replaceGo pat rep s.length s

/-- interpreter/function.rs replace: replaces all occurrences per element. -/
def replace (texts : List RStr) (search replacement : String) : List RStr :=
  texts.map (fun t => replaceAllBytes t (strBytes search) (strBytes replacement))

/-- ASCII model of str::to_lowercase (Unicode case folding is an external
    standard-library table; no claim depends on non-ASCII case). -/
def lowerByte (b : Nat) : Nat := if 65 ≤ b && b ≤ 90 then b + 32 else b

/-- ASCII model of str::to_uppercase. -/
def upperByte (b : Nat) : Nat := if 97 ≤ b && b ≤ 122 then b - 32 else b

/-- interpreter/function.rs lowercase. -/
def lowercase (texts : List RStr) : List RStr := texts.map (fun t => t.map lowerByte)

/-- interpreter/function.rs uppercase. -/
def uppercase (texts : List RStr) : List RStr := texts.map (fun t => t.map upperByte)

/-- interpreter/function.rs join: reduce the whole array to one element. -/
def join (texts : List RStr) (separator : String) : List RStr :=
  [List.intercalate (strBytes separator) texts]

/-- str::parse::<i64> on bytes: optional sign, one or more ASCII digits,
    value within the i64 range. -/
def parseI64 (s : RStr) : Option Int :=
  let (sign, digits) : Int × RStr :=
    match s with
    | 43 :: rest => (1, rest)
    | 45 :: rest => (-1, rest)
    | _ => (1, s)
  if digits.isEmpty || !digits.all (fun b => 48 ≤ b && b ≤ 57) then none
  else
    let n : Nat := digits.foldl (fun acc b => acc * 10 + (b - 48)) 0
    let v : Int := sign * n
    if -((2 : Int) ^ 63) ≤ v ∧ v < (2 : Int) ^ 63 then some v else none

/-- i64 Display rendering on bytes. -/
def intDecBytes (n : Int) : RStr := strBytes (toString n)

/-- Rust {:x} / {:X} formatting of an i64: the two's-complement value as
    unsigned hexadecimal. -/
def i64HexBytes (upper : Bool) (n : Int) : RStr :=
  let digits := strBytes (hexStr (n % (2 : Int) ^ 64).toNat)
  if upper then digits.map upperByte else digits

/-- Modelled from the spec: f64 parsing and Display rendering
    (str::parse::<f64> of the %f branch) are machine floating point, outside
    a shallow embedding; the model always reports a parse failure, which
    leaves the element unchanged exactly as the source's failure path does.
    No claim depends on this branch. -/
def parseF64Render (_s : RStr) : Option RStr := none

/-- The bytes of the placeholder braces pattern of format. -/
def braceBytes : RStr := [123, 125]

/-- str::replacen(pat, rep, 1) on bytes: replace the first occurrence. -/
def replaceFirstBytes (pat rep : RStr) : RStr → RStr
  | [] => []
  | b :: rest =>
    if pat.isPrefixOf (b :: rest) then
      rep ++ (b :: rest).drop pat.length
    else
      b :: replaceFirstBytes pat rep rest

/-- interpreter/function.rs format, per element. -/
def formatOne (format_str : String) (t : RStr) : RStr :=
  let fmt := strBytes format_str
  if decide (List.IsInfix braceBytes fmt) then
    replaceFirstBytes braceBytes t fmt
  else if fmt.head? == some 37 then
    if fmt == strBytes "%s" then t
    else if fmt == strBytes "%d" || fmt == strBytes "%i" then
      match parseI64 (trimBytes t) with
      | some num => intDecBytes num
      | none => t
    else if fmt == strBytes "%f" then
      match parseF64Render (trimBytes t) with
      | some rendered => rendered
      | none => t
    else if fmt == strBytes "%x" then
      match parseI64 (trimBytes t) with
      | some num => i64HexBytes false num
      | none => t
    else if fmt == strBytes "%X" then
      match parseI64 (trimBytes t) with
      | some num => i64HexBytes true num
      | none => t
    else fmt ++ t
  else fmt ++ t

/-- interpreter/function.rs format. -/
def format (texts : List RStr) (format_str : String) : List RStr :=
  texts.map (formatOne format_str)

/-- interpreter/function.rs contains: keep elements containing the substring. -/
def contains (texts : List RStr) (inner : RStr) : List RStr :=
  texts.filter (fun t => decide (List.IsInfix inner t))

/-- interpreter/function.rs starts_with. -/
def starts_with (texts : List RStr) (st : RStr) : List RStr :=
  texts.filter (fun t => st.isPrefixOf t)

/-- interpreter/function.rs ends_with. -/
def ends_with (texts : List RStr) (ed : RStr) : List RStr :=
  texts.filter (fun t => ed.isSuffixOf t)

/-- interpreter/function.rs in_: keep elements present in the given list. -/
def in_ (texts : List RStr) (list : List RStr) : List RStr :=
  texts.filter (fun t => list.contains t)

/-- str::is_char_boundary on bytes: position 0, the end of the string, or a
    byte that is not a UTF-8 continuation byte. -/
def is_char_boundary (t : RStr) (i : Nat) : Bool :=
  if i == 0 then true
  else
    match t[i]? with
    | some b => decide (b < 128 ∨ 192 ≤ b)
    | none => i == t.length

/-- str::get(st..ed) on bytes: Some exactly when the range is ordered and
    both ends are char boundaries. -/
def strGet (t : RStr) (st ed : Nat) : Option RStr :=
  if st ≤ ed && is_char_boundary t st && is_char_boundary t ed then
    some ((t.drop st).take (ed - st))
  else
    none

/-- interpreter/function.rs slice, per element: default the bounds, clamp the
    end to the length, swap (clamping the start) when start exceeds end, and
    keep the element unchanged when str::get declines the range. The swap of
    the source is inlined into the argument order of the str::get call. -/
def sliceOne (t : RStr) (st? ed? : Option Nat) : RStr :=
  let st := st?.getD 0
  let ed := ed?.getD t.length
  let ed := if ed > t.length then t.length else ed
  if st > ed then
    match strGet t ed (if st > t.length then t.length else st) with
    | some sub => sub
    | none => t
  else
    match strGet t st ed with
    | some sub => sub
    | none => t

/-- interpreter/function.rs slice. -/
def slice (texts : List RStr) (st ed : Option Nat) : List RStr :=
  texts.map (fun t => sliceOne t st ed)

/-- The per-argument check of the slice arm of apply_function. -/
def sliceArg : Literal → Except InterpreterError (Option Nat)
  | .int n =>
    if n < 0 then
      .error (.InvalidArgument "slice\u0027s parameter must be greater than or equal to 0.")
    else
      .ok (some n.toNat)
  | .nil => .ok none
  | _ => .error (.InvalidArgument "slice expect a value of type int")

/-- The element collection of the in arm of apply_function: every list
    element must be a string literal. -/
def collectStrs : List Literal → Option (List String)
  | [] => some []
  | .str v :: rest =>
    (match collectStrs rest with
     | some values => some (v :: values)
     | none => none)
  | _ :: _ => none

/-- interpreter/function.rs apply_function, as a pure function from the
    current result to the next one (the source mutates it.result through
    texts_mut). -/
def apply_function (node : FunctionNode) (res : SelectionResult) :
    Except InterpreterError SelectionResult :=
  match res.textsE with
  | .error e => .error e
  | .ok texts =>
    match node.name with
    | "trim" => .ok (.Texts (trim texts))
    | "replace" =>
      (match node.arguments with
       | [arg0, arg1] =>
         (match arg0 with
          | .str value0 =>
            (match arg1 with
             | .str value1 => .ok (.Texts (replace texts value0 value1))
             | _ => .error (.InvalidArgument "The 2th parameter of replace expects a value of type str."))
          | _ => .error (.InvalidArgument "The first parameter of replace expects a value of type str."))
       | _ => .error (.MissingArgument "repalce must include 2 argument."))
    | "lowercase" => .ok (.Texts (lowercase texts))
    | "uppercase" => .ok (.Texts (uppercase texts))
    | "join" =>
      (match node.arguments with
       | [arg0] =>
         (match arg0 with
          | .str value0 => .ok (.Texts (join texts value0))
          | _ => .error (.InvalidArgument "join expects a value of type str"))
       | [] => .ok (.Texts (join texts ""))
       | _ => .error (.MissingArgument "join must include 0 or 1 argument."))
    | "format" =>
      (match node.arguments with
       | [arg0] =>
         (match arg0 with
          | .str value0 => .ok (.Texts (format texts value0))
          | _ => .error (.InvalidArgument "format expect a value of type str"))
       | _ => .error (.MissingArgument "format must include 1 argument."))
    | "contains" =>
      (match node.arguments with
       | [arg0] =>
         (match arg0 with
          | .str value0 => .ok (.Texts (contains texts (strBytes value0)))
          | _ => .error (.InvalidArgument "contains expect a value of type str"))
       | _ => .error (.MissingArgument "contains must include 1 argument."))
    | "starts_with" =>
      (match node.arguments with
       | [arg0] =>
         (match arg0 with
          | .str value0 => .ok (.Texts (starts_with texts (strBytes value0)))
          | _ => .error (.InvalidArgument "starts_with expect a value of type str"))
       | _ => .error (.MissingArgument "starts_with must include 1 argument."))
    | "ends_with" =>
      (match node.arguments with
       | [arg0] =>
         (match arg0 with
          | .str value0 => .ok (.Texts (ends_with texts (strBytes value0)))
          | _ => .error (.InvalidArgument "ends_with expect a value of type str"))
       | _ => .error (.MissingArgument "ends_with must include 1 argument."))
    | "in" =>
      (match node.arguments with
       | [arg0] =>
         (match arg0 with
          | .list list =>
            (match collectStrs list with
             | some values => .ok (.Texts (in_ texts (values.map strBytes)))
             | none => .error (.InvalidArgument "in expect a value of type list<str>"))
          | _ => .error (.InvalidArgument "in expect a value of type list<str>"))
       | _ => .error (.MissingArgument "in must include 1 argument."))
    | "slice" =>
      (match node.arguments with
       | [arg0, arg1] =>
         (match sliceArg arg0 with
          | .error e => .error e
          | .ok st =>
            match sliceArg arg1 with
            | .error e => .error e
            | .ok ed => .ok (.Texts (slice texts st ed)))
       | _ => .error (.MissingArgument "slice must include 2 argument."))
    | _ => .error (.UnknownFunction node.name)

/- ===================== interpreter/index.rs ===================== -/

/-- interpreter/index.rs normal_index: Python-style negative indexing; the
    success value is always some (the Option mirrors the source's return
    type). -/
def normal_index (index : Literal) (len : Int) : Except InterpreterError (Option Int) :=
  match index with
  | .int n =>
    if 0 ≤ n ∧ n < len then
      .ok (some n)
    else if n < 0 ∧ -n ≤ len then
      .ok (some (n + len))
    else
      .error (.IndexOutOfBounds (i64AsUsize n) len.toNat)
  | _ => .error (.InvalidArgument "index selection expects a value of type int.")

/-- interpreter/index.rs apply_single_index, as a pure function from the
    current result to the next one. The selected position is in range
    whenever it is reached, so the default of getD models the source's
    checked vector indexing. -/
def apply_single_index (res : SelectionResult) (index : Literal) :
    Except InterpreterError SelectionResult :=
  match res with
  | .Nodes nodes =>
    (match index with
     | .int n =>
       let len : Int := nodes.length
       if 0 ≤ n ∧ n < len then
         .ok (SelectionResult.with_nodes [nodes.getD n.toNat { node := none, node_id := "" }])
       else if n < 0 ∧ -n ≤ len then
         .ok (SelectionResult.with_nodes
               [nodes.getD (n + len).toNat { node := none, node_id := "" }])
       else
         .error (.IndexOutOfBounds (i64AsUsize n) nodes.length)
     | _ => .error (.InvalidArgument "index selection expects a value of type int."))
  | .Texts texts =>
    (match index with
     | .int n =>
       let len : Int := texts.length
       if 0 ≤ n ∧ n < len then
         .ok (SelectionResult.with_texts [texts.getD n.toNat []])
       else if n < 0 ∧ -n ≤ len then
         .ok (SelectionResult.with_texts [texts.getD (n + len).toNat []])
       else
         .error (.IndexOutOfBounds (i64AsUsize n) texts.length)
     | _ => .error (.InvalidArgument "index selection expects a value of type int."))

/-- The element-collection loop of apply_multiple_indices: normal_index each
    listed literal (its success value is always some, mirroring the source's
    unwrap) and select that position. -/
def selectAt {α : Type} (xs : List α) (dflt : α) : List Literal →
    Except InterpreterError (List α)
  | [] => .ok []
  | index :: rest =>
    match normal_index index xs.length with
    | .error e => .error e
    | .ok o =>
      let idx := (o.getD 0).toNat
      match selectAt xs dflt rest with
      | .error e => .error e
      | .ok more => .ok (xs.getD idx dflt :: more)

/-- interpreter/index.rs apply_multiple_indices. -/
def apply_multiple_indices (res : SelectionResult) (indices : List Literal) :
    Except InterpreterError SelectionResult :=
  match res with
  | .Nodes nodes =>
    (match selectAt nodes { node := none, node_id := "" } indices with
     | .error e => .error e
     | .ok selected_nodes => .ok (SelectionResult.with_nodes selected_nodes))
  | .Texts texts =>
    (match selectAt texts [] indices with
     | .error e => .error e
     | .ok selected_texts => .ok (SelectionResult.with_texts selected_texts))

/-- The order error of the positive-step branch of apply_range_indices. -/
def posStepMsg : String :=
  "When the step size is positive, the starting index must be equal or less than the ending index."

/-- The order error of the negative-step branch of apply_range_indices. -/
def negStepMsg : String :=
  "When the step size is negative, the starting index must be equal or greater than the ending index."

/-- The Range iterator of the positive-step branch of apply_range_indices
    ((start..end).step_by(step)); the internally supplied fuel
    (en - st).toNat + 1 suffices for every positive step. -/
def posStepList : Nat → Int → Int → Int → List Int
  | 0, _, _, _ => []
  | fuel + 1, st, en, step =>
    if st < en then st :: posStepList fuel (st + step) en step else []

/-- The while loop of the negative-step branch of apply_range_indices:
    starting at st, push and add the step while the index is at least en.
    For a step of 0 with st at least en the loop of the source never
    terminates; the fuel makes that observable as none for every fuel. -/
def negStepLoop : Nat → Int → Int → Int → Option (List Int)
  | 0, _, _, _ => none
  | fuel + 1, st, en, step =>
    if st ≥ en then
      (negStepLoop fuel (st + step) en step).map (fun tail => st :: tail)
    else
      some []

/-- interpreter/index.rs apply_range_indices. A none outcome models the
    divergence of the source's while loop (its fuel ran out); every
    terminating path is some. -/
def apply_range_indices (fuel : Nat) (res : SelectionResult)
    (start stop step : Option Literal) :
    Option (Except InterpreterError SelectionResult) :=
  let len : Int := res.count
  let startRes : Except InterpreterError (Option Int) :=
    match start with
    | some v => normal_index v len
    | none => .ok none
  match startRes with
  | .error e => some (.error e)
  | .ok start_index =>
    let endRes : Except InterpreterError (Option Int) :=
      match stop with
      | some v => normal_index v len
      | none => .ok none
    match endRes with
    | .error e => some (.error e)
    | .ok end_index =>
      let step_value : Int :=
        match step with
        | some (.int n) => n
        | _ => 1
      if 0 < step_value then
        let start_index := start_index.getD 0
        let end_index := end_index.getD len
        if start_index ≤ end_index then
          let indices :=
            (posStepList ((end_index - start_index).toNat + 1) start_index end_index
              step_value).map Literal.int
          some (apply_multiple_indices res indices)
        else
          some (.error (.ExecutionError posStepMsg))
      else
        let start_index := start_index.getD (len - 1)
        let end_index := end_index.getD 0
        if start_index ≥ end_index then
          match negStepLoop fuel start_index end_index step_value with
          | none => none
          | some indexs => some (apply_multiple_indices res (indexs.map Literal.int))
        else
          some (.error (.ExecutionError negStepMsg))

/-- interpreter/index.rs apply_index_selection. -/
def apply_index_selection (fuel : Nat) (index : IndexNode) (res : SelectionResult) :
    Option (Except InterpreterError SelectionResult) :=
  match index with
  | .Single idx => some (apply_single_index res idx)
  | .Multiple indices => some (apply_multiple_indices res indices)
  | .Range start stop step => apply_range_indices fuel res start stop step

/- ===================== interpreter/set.rs : pure parts ===================== -/

/-- Set operation result type (interpreter/set.rs OperationResults). -/
inductive OperationResults where
  | nodes (left right : List NodeHandle)
  | texts (left right : List RStr)

/-- One deduplication pass of union_operation: push each element whose key
    the seen set does not yet hold, inserting the key (the HashSet of the
    source modelled as a key list with membership). Returns the kept
    elements and the grown seen set. -/
def dedupPass {α κ : Type} [DecidableEq κ] (key : α → κ) :
    List α → List κ → List α × List κ
  | [], seen => ([], seen)
  | x :: xs, seen =>
    if key x ∈ seen then
      dedupPass key xs seen
    else
      (x :: (dedupPass key xs (key x :: seen)).1, (dedupPass key xs (key x :: seen)).2)

/-- The two passes of union_operation (left then right over one shared seen
    set), keeping first occurrences. -/
def unionDedup {α κ : Type} [DecidableEq κ] (key : α → κ) (left right : List α) : List α :=
  (dedupPass key left []).1 ++ (dedupPass key right (dedupPass key left []).2).1

/-- The filter of intersection_operation: keep right-side elements whose key
    appears on the left, in right-side order. -/
def intersectFilter {α κ : Type} [DecidableEq κ] (key : α → κ) (left right : List α) : List α :=
  let left_keys := left.map key
  right.filter (fun x => left_keys.contains (key x))

/-- The filter of difference_operation: keep left-side elements whose key
    does not appear on the right, in left-side order. -/
def differenceFilter {α κ : Type} [DecidableEq κ] (key : α → κ) (left right : List α) : List α :=
  let right_keys := right.map key
  left.filter (fun x => !right_keys.contains (key x))

/-- The inconsistent-result-types message of execute_sides, naming the
    operation and the result types of both sides. -/
def mismatchMsg (op_name : String) (left_results right_results : SelectionResult) : String :=
  op_name ++ " operation has inconsistent result types: left side is "
    ++ (if left_results.is_nodes then "nodes" else "texts")
    ++ ", right side is "
    ++ (if right_results.is_nodes then "nodes" else "texts")

/-- The result-type consistency check and extraction of execute_sides
    (interpreter/set.rs), over the two branch outcomes. -/
def checkSides (left_results right_results : SelectionResult) (op_name : String) :
    Except InterpreterError OperationResults :=
  if left_results.is_nodes != right_results.is_nodes then
    .error (.ExecutionError (mismatchMsg op_name left_results right_results))
  else if left_results.is_nodes then
    match left_results.nodesE with
    | .error e => .error e
    | .ok left_nodes =>
      match right_results.nodesE with
      | .error e => .error e
      | .ok right_nodes => .ok (.nodes left_nodes right_nodes)
  else
    match left_results.textsE with
    | .error e => .error e
    | .ok left_texts =>
      match right_results.textsE with
      | .error e => .error e
      | .ok right_texts => .ok (.texts left_texts right_texts)

/- ========== interpreter/pipeline.rs, set.rs, mod.rs : execution ========== -/

/-- The hard error of interpreter/pipeline.rs apply_pipeline for a non-empty
    Texts left result. -/
def pipelineTextsError : InterpreterError :=
  .ExecutionError "The text results on the left side of the pipeline cannot be used as input for the operations on the right side."

/-- interpreter/set.rs execute_sides, over the two branch outcomes: each
    branch ran against its own clone of the interpreter, the first failure
    wins (the source returns before running the right side when the left
    fails), and on success the result tags must agree. A none outcome is a
    diverging branch. -/
def execSidesOutcome
    (leftOut rightOut : Option (Except InterpreterError Unit × Interpreter))
    (op_name : String) : Option (Except InterpreterError OperationResults) :=
  match leftOut with
  | none => none
  | some (.error e, _) => some (.error e)
  | some (.ok _, it_left) =>
    match rightOut with
    | none => none
    | some (.error e, _) => some (.error e)
    | some (.ok _, it_right) =>
      some (checkSides it_left.result it_right.result op_name)

mutual

/-- interpreter/mod.rs Visitor::visit_node for Interpreter, threading the
    mutated interpreter state explicitly (the state at the point of failure
    accompanies an error outcome, as the source's early returns leave the
    mutations in place). A none outcome models divergence of the range
    loop for the given fuel. -/
def Interpreter.visit_node (fuel : Nat) :
    Node → Interpreter → Option (Except InterpreterError Unit × Interpreter)
  | .Selector selector, it =>
    (match (match selector with
            | .ElementSelector elem => apply_element_selector elem it.result
            | .TextSelector text => apply_text_selector text it.result) with
     | .error e => some (.error e, it)
     | .ok result => some (.ok (), { it with result := result }))
  | .Pipeline left right, it =>
    (match Interpreter.visit_node fuel left it with
     | none => none
     | some (.error e, it) => some (.error e, it)
     | some (.ok _, it) =>
       if it.result.is_empty then some (.ok (), it)
       else if it.result.is_texts then some (.error pipelineTextsError, it)
       else Interpreter.visit_node fuel right it)
  | .SetOperation op, it => Interpreter.visit_set_operation fuel op it
  | .IndexSelection inner idx, it =>
    (match Interpreter.visit_node fuel inner it with
     | none => none
     | some (.error e, it) => some (.error e, it)
     | some (.ok _, it) =>
       match apply_index_selection fuel idx it.result with
       | none => none
       | some (.error e) => some (.error e, it)
       | some (.ok result) => some (.ok (), { it with result := result }))
  | .FunctionCall inner func, it =>
    (match Interpreter.visit_node fuel inner it with
     | none => none
     | some (.error e, it) => some (.error e, it)
     | some (.ok _, it) =>
       match apply_function func it.result with
       | .error e => some (.error e, it)
       | .ok result => some (.ok (), { it with result := result }))

/-- interpreter/set.rs apply_set_operation: each branch is evaluated against
    an independent copy of the current state; a failing branch leaves the
    interpreter unchanged, a successful operation replaces its result. -/
def Interpreter.visit_set_operation (fuel : Nat) :
    SetOperationNode → Interpreter → Option (Except InterpreterError Unit × Interpreter)
  | .Union left right, it =>
    (match execSidesOutcome (Interpreter.visit_node fuel left it)
             (Interpreter.visit_node fuel right it) "union" with
     | none => none
     | some (.error e) => some (.error e, it)
     | some (.ok (.nodes left_nodes right_nodes)) =>
       some (.ok (), { it with
         result := SelectionResult.with_nodes
           (unionDedup NodeHandle.id left_nodes right_nodes) })
     | some (.ok (.texts left_texts right_texts)) =>
       some (.ok (), { it with
         result := SelectionResult.with_texts
           (unionDedup (fun t => t) left_texts right_texts) }))
  | .Intersection left right, it =>
    (match execSidesOutcome (Interpreter.visit_node fuel left it)
             (Interpreter.visit_node fuel right it) "intersection" with
     | none => none
     | some (.error e) => some (.error e, it)
     | some (.ok (.nodes left_nodes right_nodes)) =>
       some (.ok (), { it with
         result := SelectionResult.with_nodes
           (intersectFilter NodeHandle.id left_nodes right_nodes) })
     | some (.ok (.texts left_texts right_texts)) =>
       some (.ok (), { it with
         result := SelectionResult.with_texts
           (intersectFilter (fun t => t) left_texts right_texts) }))
  | .Difference left right, it =>
    (match execSidesOutcome (Interpreter.visit_node fuel left it)
             (Interpreter.visit_node fuel right it) "difference" with
     | none => none
     | some (.error e) => some (.error e, it)
     | some (.ok (.nodes left_nodes right_nodes)) =>
       some (.ok (), { it with
         result := SelectionResult.with_nodes
           (differenceFilter NodeHandle.id left_nodes right_nodes) })
     | some (.ok (.texts left_texts right_texts)) =>
       some (.ok (), { it with
         result := SelectionResult.with_texts
           (differenceFilter (fun t => t) left_texts right_texts) }))

end

/-- interpreter/mod.rs Interpreter::select: parse, reset the selection on
    every interpretation after the first, interpret, and return a copy of
    the resulting selection. A parse failure is surfaced as a ParserError
    holding the parse error's display and leaves the state untouched. -/
def Interpreter.select (fuel : Nat) (it : Interpreter) (selector : String) :
    Option ((Except InterpreterError SelectionResult) × Interpreter) :=
  match parse selector with
  | .error e => some (.error (.ParserError e.display), it)
  | .ok ast =>
    let it :=
      if !it.is_first_interpret then it.reset_selection
      else { it with is_first_interpret := false }
    match Interpreter.visit_node fuel ast it with
    | none => none
    | some (.error e, it) => some (.error e, it)
    | some (.ok _, it) => some (.ok it.result, it)

/-- interpreter/mod.rs Interpreter::select_from: save the session state, run
    against the supplied context, and restore the saved state before
    returning the result. The restore sits after the parse and interpret
    steps, whose early error returns skip it, exactly as in the source. -/
def Interpreter.select_from (fuel : Nat) (it : Interpreter) (context : SelectionResult)
    (selector : String) :
    Option ((Except InterpreterError SelectionResult) × Interpreter) :=
  let original_result := it.result
  let was_first := it.is_first_interpret
  let it := { it with result := context, is_first_interpret := false }
  match parse selector with
  | .error e => some (.error (.ParserError e.display), it)
  | .ok ast =>
    match Interpreter.visit_node fuel ast it with
    | none => none
    | some (.error e, it) => some (.error e, it)
    | some (.ok _, it) =>
      let result := it.result
      some (.ok result, { it with result := original_result, is_first_interpret := was_first })

/- ============ Statement scaffolding and concrete sample inputs ============ -/

/-- Modelled from the spec: the clamped and swapped byte bounds of slice
    (end clamped to the length; on start exceeding end, start clamped to the
    length and the two swapped). Proven below to be the bounds the embedded
    sliceOne passes to str::get. -/
def sliceBounds (t : RStr) (st ed : Option Nat) : Nat × Nat :=
  let s0 := st.getD 0
  let e1 := min (ed.getD t.length) t.length
  if s0 > e1 then (e1, min s0 t.length) else (s0, e1)

/-- Encoding of a well-typed slice bound: a non-negative integer literal or
    the nil literal. -/
def optLit : Option Nat → Literal
  | none => .nil
  | some n => .int n

/-- The first p element of the sample document. -/
def sampleP1 : HtmlNode := .mk 2 (.Element "p" []) [.mk 3 (.Text "text 1") []]

/-- The second p element of the sample document. -/
def sampleP2 : HtmlNode := .mk 4 (.Element "p" []) [.mk 5 (.Text "text 2") []]

/-- A small concrete document, the DOM tree of
    <div class="a"><p>text 1</p><p>text 2</p></div>. -/
def sampleDoc : HtmlNode :=
  .mk 0 .Document [.mk 1 (.Element "div" [("class", "a")]) [sampleP1, sampleP2]]

/-- The handle of the sample document root. -/
def sampleRoot : NodeHandle := NodeHandle.from_html5 sampleDoc

/-- A fresh session over the sample document. -/
def sampleIt : Interpreter := Interpreter.ofDocument sampleRoot

/-- The display of the parse error produced for the selector "(". -/
def parenParseMsg : String :=
  "Parse error (line 1, column 2): Unexpected token - Expected selector but found EOF\nHint: Please check if selector is missing here"

/-- The session state select_from leaves behind when its parse step fails on
    the context Texts [bytes of x]: the context is installed as the current
    result and the first-interpretation flag is cleared. -/
def clobberedIt : Interpreter :=
  { sampleIt with
    result := SelectionResult.with_texts [strBytes "x"]
    is_first_interpret := false }

/-- The display of the validation error produced for the selector
    tag p > text > tag p. -/
def elementAfterTextMsg : String :=
  "Parse error (line 0, column 0): Element query after text query - Element query directives cannot appear after text query directives\nHint: Please place element query directives before text query directives"

/-- The AST the parser builds for text > tag p > text. -/
def secondTextAst : Node :=
  .Pipeline
    (.Pipeline (.Selector (.TextSelector .Text))
      (.Selector (.ElementSelector (.Tag "p" false))))
    (.Selector (.TextSelector .Text))

/-- The AST the parser builds for tag p > text > href. -/
def textThenHrefAst : Node :=
  .Pipeline
    (.Pipeline (.Selector (.ElementSelector (.Tag "p" false)))
      (.Selector (.TextSelector .Text)))
    (.Selector (.TextSelector .Href))

/-- A selector with no match in the sample document (an empty Nodes result). -/
def noMatchSelector : Node := .Selector (.ElementSelector (.Tag "zzz" false))

/-- The tag p element selector. -/
def tagP : Node := .Selector (.ElementSelector (.Tag "p" false))

/-- The text selector as an AST. -/
def textSel : Node := .Selector (.TextSelector .Text)

/-- The session state after evaluating noMatchSelector: an empty node
    selection. -/
def sampleEmptyIt : Interpreter := { sampleIt with result := .Nodes [] }

/-- The session state after evaluating tagP on the sample session: the two
    p elements in document order. -/
def samplePsIt : Interpreter :=
  { sampleIt with
    result := .Nodes [NodeHandle.from_html5 sampleP1, NodeHandle.from_html5 sampleP2] }

/-- The session state after evaluating textSel on the sample session: the
    document root is not an element, so its text content is empty. -/
def sampleTextIt : Interpreter := { sampleIt with result := .Texts [strBytes ""] }

/- ===================================================================== -/
/- =========================== THEOREMS =============================== -/
/- ===================================================================== -/

/-- Claim C1 (code bug): select_from is not side-effect-free on the session.
    At the concrete failing input (a fresh session over the sample document,
    the context Texts [bytes of x], and the unparsable selector "(") the
    call returns a parser error and leaves the session with the context
    installed as its current result and the first-interpretation flag
    cleared: the early error return of select_from skips the state
    restore. -/
theorem select_from_clobbers_session_state_on_error :
    Interpreter.select_from 9 sampleIt (SelectionResult.with_texts [strBytes "x"]) "(" =
      some (.error (.ParserError parenParseMsg), clobberedIt)
    ∧ clobberedIt.is_first_interpret ≠ sampleIt.is_first_interpret
    ∧ clobberedIt.result.is_texts ≠ sampleIt.result.is_texts :=
  ⟨rfl, by decide, by decide⟩

/-- The negative-step while loop of apply_range_indices never terminates
    when the step is 0 and the start is at least the end index 0: for every
    fuel the fueled loop is exhausted. -/
theorem negStepLoop_zero_step_none :
    ∀ (fuel : Nat) (st : Int), 0 ≤ st → negStepLoop fuel st 0 0 = none := by
  intro fuel
  induction fuel with
  | zero => intro st _; rfl
  | succ n ih =>
    intro st h
    simp only [negStepLoop]
    rw [if_pos (show st ≥ 0 from h)]
    rw [show st + 0 = st from Int.add_zero st]
    rw [ih st h]
    rfl

/-- Claim C2 (code bug): a Range index whose step literal is the integer 0 is
    not rejected with the invalid-step error. On every non-empty current
    result the execution diverges (the source's while loop adds a zero step
    forever; here the fueled loop yields none for every fuel), and on an
    empty current result it terminates with the negative-step ordering
    ExecutionError, which is not the InvalidStep error, for any step
    payload. -/
theorem zero_step_range_diverges_instead_of_invalid_step :
    ∀ (fuel : Nat) (res : SelectionResult),
      (1 ≤ res.count →
        apply_range_indices fuel res none none (some (.int 0)) = none)
      ∧ (res.count = 0 →
        apply_range_indices fuel res none none (some (.int 0)) =
          some (.error (.ExecutionError negStepMsg)))
      ∧ ∀ s : Int, (InterpreterError.ExecutionError negStepMsg) ≠ .InvalidStep s := by
  intro fuel res
  refine ⟨?_, ?_, ?_⟩
  · intro h
    simp only [apply_range_indices]
    rw [if_neg (by omega : ¬ (0 : Int) < 0)]
    rw [if_pos (show (Option.getD none ((res.count : Int) - 1)) ≥ Option.getD none 0 by
      simp only [Option.getD]; omega)]
    rw [show Option.getD none ((res.count : Int) - 1) = (res.count : Int) - 1 from rfl]
    rw [show Option.getD none (0 : Int) = 0 from rfl]
    rw [negStepLoop_zero_step_none fuel ((res.count : Int) - 1) (by omega)]
  · intro h
    simp only [apply_range_indices]
    rw [if_neg (by omega : ¬ (0 : Int) < 0)]
    rw [if_neg (show ¬ (Option.getD none ((res.count : Int) - 1)) ≥ Option.getD none 0 by
      simp only [Option.getD]; omega)]
  · intro s h
    exact InterpreterError.noConfusion h

/-- Witness for claim C2: the concrete failing inputs. On the one-element
    Texts result the zero-step range diverges for the concrete fuel, and on
    the empty result it returns the ordering error rather than InvalidStep. -/
theorem zero_step_range_diverges_witness :
    apply_range_indices 5 (SelectionResult.with_texts [strBytes "a"]) none none
      (some (.int 0)) = none
    ∧ apply_range_indices 5 (SelectionResult.with_texts []) none none
      (some (.int 0)) = some (.error (.ExecutionError negStepMsg)) :=
  ⟨(zero_step_range_diverges_instead_of_invalid_step 5
      (SelectionResult.with_texts [strBytes "a"])).1 (by decide),
   ((zero_step_range_diverges_instead_of_invalid_step 5
      (SelectionResult.with_texts [])).2).1 rfl⟩

/-- Claim C3 counterexample: evaluating tag p > text > tag p over the sample
    session fails, but with the parse-time element-after-text validation
    error surfaced as a ParserError, not with the interpreter's dedicated
    pipeline error; the state is untouched because the failure precedes any
    document access. -/
theorem pipeline_text_chain_not_pipeline_error :
    Interpreter.select 9 sampleIt "tag p > text > tag p" =
      some (.error (.ParserError elementAfterTextMsg), sampleIt)
    ∧ (InterpreterError.ParserError elementAfterTextMsg) ≠ pipelineTextsError :=
  ⟨rfl, by decide⟩

/-- Claim C3 as amended: for every session (hence every document) and every
    fuel, evaluating the selector tag p > text > tag p fails with the
    parse-time element-after-text validation error, before any document
    access, leaving the session unchanged. -/
theorem pipeline_text_chain_rejected_by_validator :
    ∀ (fuel : Nat) (it : Interpreter),
      Interpreter.select fuel it "tag p > text > tag p" =
        some (.error (.ParserError elementAfterTextMsg), it) :=
  fun _ _ => rfl

mutual

/-- When the validator accepts a node, no path through it holds a second
    text-family selector, and the resulting state records exactly whether
    the walk ends with a text selector seen (the spec-side scan). -/
theorem sv_ok_scan : ∀ (n : Node) (s t : ValidationState),
    SyntaxValidator.visit_node s n = .ok t →
    (specTextScan s.has_text_selector n).1 = false ∧
    t.has_text_selector = (specTextScan s.has_text_selector n).2 := by
  intro n
  match n with
  | .Selector (.ElementSelector e) =>
    intro s t h
    simp only [SyntaxValidator.visit_node, SyntaxValidator.visit_selector,
      SyntaxValidator.visit_element, ValidationState.can_add_element_selector] at h
    by_cases hs : s.has_text_selector
    · simp [hs] at h
    · simp only [hs, Bool.not_false, Bool.not_true, reduceIte] at h
      cases h
      simp [specTextScan, hs]
  | .Selector (.TextSelector tx) =>
    intro s t h
    simp only [SyntaxValidator.visit_node, SyntaxValidator.visit_selector,
      SyntaxValidator.visit_text] at h
    by_cases hs : s.has_text_selector
    · simp [hs] at h
    · simp only [hs, reduceIte] at h
      cases h
      simp [specTextScan, hs, ValidationState.mark_text_selector]
  | .Pipeline l r =>
    intro s t h
    simp only [SyntaxValidator.visit_node] at h
    cases hl : SyntaxValidator.visit_node s l with
    | error e => rw [hl] at h; exact absurd h (by simp)
    | ok s1 =>
      rw [hl] at h
      have ihl := sv_ok_scan l s s1 hl
      have ihr := sv_ok_scan r s1 t h
      simp only [specTextScan]
      constructor
      · rw [ihl.1, ← ihl.2, ihr.1]
        rfl
      · rw [← ihl.2, ihr.2]
  | .SetOperation op =>
    intro s t h
    simp only [SyntaxValidator.visit_node] at h
    exact sv_set_ok_scan op s t h
  | .IndexSelection inner idx =>
    intro s t h
    simp only [SyntaxValidator.visit_node] at h
    cases hl : SyntaxValidator.visit_node s inner with
    | error e => rw [hl] at h; exact absurd h (by simp)
    | ok s1 =>
      rw [hl] at h
      simp only [SyntaxValidator.visit_index] at h
      cases h
      exact sv_ok_scan inner s t hl
  | .FunctionCall inner f =>
    intro s t h
    simp only [SyntaxValidator.visit_node] at h
    cases hl : SyntaxValidator.visit_node s inner with
    | error e => rw [hl] at h; exact absurd h (by simp)
    | ok s1 =>
      rw [hl] at h
      simp only [SyntaxValidator.visit_function] at h
      cases h
      exact sv_ok_scan inner s t hl

/-- The set-operation case of sv_ok_scan. -/
theorem sv_set_ok_scan : ∀ (op : SetOperationNode) (s t : ValidationState),
    SyntaxValidator.visit_set_operation s op = .ok t →
    (specTextScanSet s.has_text_selector op).1 = false ∧
    t.has_text_selector = (specTextScanSet s.has_text_selector op).2 := by
  intro op
  match op with
  | .Union l r | .Intersection l r | .Difference l r =>
    intro s t h
    simp only [SyntaxValidator.visit_set_operation] at h
    cases hl : SyntaxValidator.visit_node s l with
    | error e => rw [hl] at h; exact absurd h (by simp)
    | ok s1 =>
      rw [hl] at h
      cases hr : SyntaxValidator.visit_node s r with
      | error e => rw [hr] at h; exact absurd h (by simp)
      | ok s2 =>
        rw [hr] at h
        cases h
        have ihl := sv_ok_scan l s s1 hl
        have ihr := sv_ok_scan r s s2 hr
        simp only [specTextScanSet]
        constructor
        · rw [ihl.1, ihr.1]
          rfl
        · rfl

end


mutual

/-- Every error the validator produces is a multiple-text-selectors error or
    an element-after-text-selector error: those are its only two failure
    sites. -/
theorem sv_err_kind : ∀ (n : Node) (s : ValidationState) (e : ParseError),
    SyntaxValidator.visit_node s n = .error e →
    e.kind = .MultipleTextSelectors ∨ e.kind = .ElementAfterTextSelector := by
  intro n
  match n with
  | .Selector (.ElementSelector el) =>
    intro s e h
    simp only [SyntaxValidator.visit_node, SyntaxValidator.visit_selector,
      SyntaxValidator.visit_element, ValidationState.can_add_element_selector] at h
    by_cases hs : s.has_text_selector
    · simp only [hs, Bool.not_true, Bool.not_false, reduceIte] at h
      cases h
      right
      rfl
    · simp [hs] at h
  | .Selector (.TextSelector tx) =>
    intro s e h
    simp only [SyntaxValidator.visit_node, SyntaxValidator.visit_selector,
      SyntaxValidator.visit_text] at h
    by_cases hs : s.has_text_selector
    · simp only [hs, reduceIte] at h
      cases h
      left
      rfl
    · simp [hs] at h
  | .Pipeline l r =>
    intro s e h
    simp only [SyntaxValidator.visit_node] at h
    cases hl : SyntaxValidator.visit_node s l with
    | error e1 =>
      rw [hl] at h
      cases h
      exact sv_err_kind l s e hl
    | ok s1 =>
      rw [hl] at h
      exact sv_err_kind r s1 e h
  | .SetOperation op =>
    intro s e h
    simp only [SyntaxValidator.visit_node] at h
    exact sv_set_err_kind op s e h
  | .IndexSelection inner idx =>
    intro s e h
    simp only [SyntaxValidator.visit_node] at h
    cases hl : SyntaxValidator.visit_node s inner with
    | error e1 =>
      rw [hl] at h
      cases h
      exact sv_err_kind inner s e hl
    | ok s1 =>
      rw [hl] at h
      simp only [SyntaxValidator.visit_index] at h
      exact absurd h (by simp)
  | .FunctionCall inner f =>
    intro s e h
    simp only [SyntaxValidator.visit_node] at h
    cases hl : SyntaxValidator.visit_node s inner with
    | error e1 =>
      rw [hl] at h
      cases h
      exact sv_err_kind inner s e hl
    | ok s1 =>
      rw [hl] at h
      simp only [SyntaxValidator.visit_function] at h
      exact absurd h (by simp)

/-- The set-operation case of sv_err_kind. -/
theorem sv_set_err_kind : ∀ (op : SetOperationNode) (s : ValidationState) (e : ParseError),
    SyntaxValidator.visit_set_operation s op = .error e →
    e.kind = .MultipleTextSelectors ∨ e.kind = .ElementAfterTextSelector := by
  intro op
  match op with
  | .Union l r | .Intersection l r | .Difference l r =>
    intro s e h
    simp only [SyntaxValidator.visit_set_operation] at h
    cases hl : SyntaxValidator.visit_node s l with
    | error e1 =>
      rw [hl] at h
      cases h
      exact sv_err_kind l s e hl
    | ok s1 =>
      rw [hl] at h
      cases hr : SyntaxValidator.visit_node s r with
      | error e2 =>
        rw [hr] at h
        cases h
        exact sv_err_kind r s e hr
      | ok s2 =>
        rw [hr] at h
        exact absurd h (by simp)

end

/-- Unfolding of parse into its syntactic and validation stages. -/
theorem parse_unfold (input : String) :
    parse input =
      (match parseSyntax input with
       | .error e => .error e
       | .ok node =>
         match SyntaxValidator.validate node with
         | .error e => .error e
         | .ok _ => .ok node) := rfl

/-- Claim C4 as amended: every AST holding a second text-family selector on
    the same path is rejected by the semantic validator, which consumes no
    document, with either the multiple-text-selectors error or the
    element-after-text-selector error; consequently no selector text whose
    parse runs to completion has such an AST. -/
theorem second_text_selector_always_rejected :
    (∀ ast : Node, specSecondTextOnPath ast = true →
      ∃ e, SyntaxValidator.validate ast = .error e ∧
        (e.kind = .MultipleTextSelectors ∨ e.kind = .ElementAfterTextSelector))
    ∧ (∀ (input : String) (ast : Node), parse input = .ok ast →
        specSecondTextOnPath ast = false) := by
  constructor
  · intro ast hspec
    cases hv : SyntaxValidator.visit_node ValidationState.new ast with
    | ok t =>
      have := (sv_ok_scan ast ValidationState.new t hv).1
      rw [show ValidationState.new.has_text_selector = false from rfl] at this
      rw [specSecondTextOnPath] at hspec
      rw [this] at hspec
      exact absurd hspec (by simp)
    | error e =>
      refine ⟨e, ?_, sv_err_kind ast ValidationState.new e hv⟩
      simp only [SyntaxValidator.validate, hv]
  · intro input ast h
    rw [parse_unfold] at h
    cases hp : parseSyntax input with
    | error e => rw [hp] at h; exact absurd h (by simp)
    | ok node =>
      rw [hp] at h
      have h2 : (match SyntaxValidator.validate node with
                 | Except.error e => (Except.error e : Except ParseError Node)
                 | Except.ok _ => Except.ok node) = Except.ok ast := h
      cases hval : SyntaxValidator.validate node with
      | error e => rw [hval] at h2; exact absurd h2 (by simp)
      | ok u =>
        rw [hval] at h2
        cases h2
        simp only [SyntaxValidator.validate] at hval
        cases hv : SyntaxValidator.visit_node ValidationState.new ast with
        | error e => rw [hv] at hval; exact absurd hval (by simp)
        | ok t =>
          have := (sv_ok_scan ast ValidationState.new t hv).1
          rw [show ValidationState.new.has_text_selector = false from rfl] at this
          rw [specSecondTextOnPath, this]

/-- Claim C4 counterexample: the selector text > tag p > text parses to an
    AST with a second text selector on the same path, yet parse rejects it
    with the element-after-text-selector error, not the
    multiple-text-selectors error the claim names. -/
theorem second_text_selector_rejected_with_other_error :
    parseSyntax "text > tag p > text" = .ok secondTextAst
    ∧ specSecondTextOnPath secondTextAst = true
    ∧ parse "text > tag p > text" = .error (ParseError.element_after_text_selector 0 0)
    ∧ (ParseError.element_after_text_selector 0 0).kind ≠ ParseErrorKind.MultipleTextSelectors :=
  ⟨rfl, rfl, rfl, by decide⟩

/-- Witness for claim C4: the AST of tag p > text > href holds a second
    text selector and is rejected with one of the two errors, and the AST
    of tag p (accepted by parse) has none. -/
theorem second_text_selector_always_rejected_witness :
    (specSecondTextOnPath textThenHrefAst = true
     ∧ ∃ e, SyntaxValidator.validate textThenHrefAst = .error e ∧
        (e.kind = .MultipleTextSelectors ∨ e.kind = .ElementAfterTextSelector))
    ∧ specSecondTextOnPath tagP = false :=
  ⟨⟨rfl, second_text_selector_always_rejected.1 textThenHrefAst rfl⟩,
   second_text_selector_always_rejected.2 "tag p" tagP rfl⟩


/-- Unfolding of the interpreter on a pipeline node. -/
theorem visit_pipeline_unfold (fuel : Nat) (l r : Node) (it : Interpreter) :
    Interpreter.visit_node fuel (.Pipeline l r) it =
      (match Interpreter.visit_node fuel l it with
       | none => none
       | some (.error e, it) => some (.error e, it)
       | some (.ok _, it) =>
         if it.result.is_empty then some (.ok (), it)
         else if it.result.is_texts then some (.error pipelineTextsError, it)
         else Interpreter.visit_node fuel r it) := rfl

/-- Claim C5: when the left side of a pipeline evaluates to an empty result
    (Nodes or Texts alike), the pipeline returns that empty result without
    evaluating the right side (the outcome is the same for every right
    side); a non-empty Texts left result raises the dedicated pipeline
    error; and a non-empty Nodes left result hands over to the right side
    evaluated on the left result. -/
theorem pipeline_short_circuits_on_empty :
    ∀ (fuel : Nat) (l r : Node) (it s : Interpreter),
      Interpreter.visit_node fuel l it = some (.ok (), s) →
      (s.result.is_empty = true →
        Interpreter.visit_node fuel (.Pipeline l r) it = some (.ok (), s))
      ∧ (∀ ts, s.result = .Texts ts → ts ≠ [] →
        Interpreter.visit_node fuel (.Pipeline l r) it = some (.error pipelineTextsError, s))
      ∧ (∀ ns, s.result = .Nodes ns → ns ≠ [] →
        Interpreter.visit_node fuel (.Pipeline l r) it = Interpreter.visit_node fuel r s) := by
  intro fuel l r it s h
  rw [visit_pipeline_unfold, h]
  refine ⟨?_, ?_, ?_⟩
  · intro h1
    simp only [h1, reduceIte]
  · intro ts hts hne
    have hempty : s.result.is_empty = false := by
      rw [hts]
      simp only [SelectionResult.is_empty]
      exact List.isEmpty_eq_false.mpr hne
    have htexts : s.result.is_texts = true := by
      rw [hts]; rfl
    simp only [hempty, htexts, reduceIte, Bool.false_eq_true]
  · intro ns hns hne
    have hempty : s.result.is_empty = false := by
      rw [hns]
      simp only [SelectionResult.is_empty]
      exact List.isEmpty_eq_false.mpr hne
    have htexts : s.result.is_texts = false := by
      rw [hns]; rfl
    simp only [hempty, htexts, reduceIte, Bool.false_eq_true]

/-- Witness for claim C5: over the sample session, an empty left result
    short-circuits (the right side tag p is not consulted), and the
    non-empty Texts left result raises the pipeline error. -/
theorem pipeline_short_circuits_witness :
    Interpreter.visit_node 9 (.Pipeline noMatchSelector tagP) sampleIt =
      some (.ok (), sampleEmptyIt)
    ∧ Interpreter.visit_node 9 (.Pipeline textSel tagP) sampleIt =
      some (.error pipelineTextsError, sampleTextIt) :=
  ⟨(pipeline_short_circuits_on_empty 9 noMatchSelector tagP sampleIt sampleEmptyIt rfl).1 rfl,
   (pipeline_short_circuits_on_empty 9 textSel tagP sampleIt sampleTextIt rfl).2.1
     [strBytes ""] rfl (by decide)⟩

/-- Unfolding of the interpreter on a union node. -/
theorem visit_setop_union_unfold (fuel : Nat) (l r : Node) (it : Interpreter) :
    Interpreter.visit_node fuel (.SetOperation (.Union l r)) it =
      (match execSidesOutcome (Interpreter.visit_node fuel l it)
               (Interpreter.visit_node fuel r it) "union" with
       | none => none
       | some (.error e) => some (.error e, it)
       | some (.ok (.nodes a b)) =>
         some (.ok (), { it with result := SelectionResult.with_nodes (unionDedup NodeHandle.id a b) })
       | some (.ok (.texts a b)) =>
         some (.ok (), { it with result := SelectionResult.with_texts (unionDedup (fun t => t) a b) })) := rfl

/-- Unfolding of the interpreter on an intersection node. -/
theorem visit_setop_inter_unfold (fuel : Nat) (l r : Node) (it : Interpreter) :
    Interpreter.visit_node fuel (.SetOperation (.Intersection l r)) it =
      (match execSidesOutcome (Interpreter.visit_node fuel l it)
               (Interpreter.visit_node fuel r it) "intersection" with
       | none => none
       | some (.error e) => some (.error e, it)
       | some (.ok (.nodes a b)) =>
         some (.ok (), { it with result := SelectionResult.with_nodes (intersectFilter NodeHandle.id a b) })
       | some (.ok (.texts a b)) =>
         some (.ok (), { it with result := SelectionResult.with_texts (intersectFilter (fun t => t) a b) })) := rfl

/-- Unfolding of the interpreter on a difference node. -/
theorem visit_setop_diff_unfold (fuel : Nat) (l r : Node) (it : Interpreter) :
    Interpreter.visit_node fuel (.SetOperation (.Difference l r)) it =
      (match execSidesOutcome (Interpreter.visit_node fuel l it)
               (Interpreter.visit_node fuel r it) "difference" with
       | none => none
       | some (.error e) => some (.error e, it)
       | some (.ok (.nodes a b)) =>
         some (.ok (), { it with result := SelectionResult.with_nodes (differenceFilter NodeHandle.id a b) })
       | some (.ok (.texts a b)) =>
         some (.ok (), { it with result := SelectionResult.with_texts (differenceFilter (fun t => t) a b) })) := rfl

/-- Claim C6: when the two branches of a set operation evaluate to results
    of differing tags, each of the three operations returns the reportable
    ExecutionError whose message names the operation and both sides result
    types, and the interpreter state is unchanged (no result is produced). -/
theorem set_operation_mixed_types_error :
    ∀ (fuel : Nat) (l r : Node) (it sl sr : Interpreter),
      Interpreter.visit_node fuel l it = some (.ok (), sl) →
      Interpreter.visit_node fuel r it = some (.ok (), sr) →
      sl.result.is_nodes ≠ sr.result.is_nodes →
      Interpreter.visit_node fuel (.SetOperation (.Union l r)) it =
        some (.error (.ExecutionError (mismatchMsg "union" sl.result sr.result)), it)
      ∧ Interpreter.visit_node fuel (.SetOperation (.Intersection l r)) it =
        some (.error (.ExecutionError (mismatchMsg "intersection" sl.result sr.result)), it)
      ∧ Interpreter.visit_node fuel (.SetOperation (.Difference l r)) it =
        some (.error (.ExecutionError (mismatchMsg "difference" sl.result sr.result)), it) := by
  intro fuel l r it sl sr hl hr hm
  have hbne : (sl.result.is_nodes != sr.result.is_nodes) = true := bne_iff_ne.mpr hm
  have hcheck : ∀ name, checkSides sl.result sr.result name =
      .error (.ExecutionError (mismatchMsg name sl.result sr.result)) := by
    intro name
    simp only [checkSides, hbne, reduceIte]
  refine ⟨?_, ?_, ?_⟩
  · rw [visit_setop_union_unfold, hl, hr]
    simp only [execSidesOutcome, hcheck]
  · rw [visit_setop_inter_unfold, hl, hr]
    simp only [execSidesOutcome, hcheck]
  · rw [visit_setop_diff_unfold, hl, hr]
    simp only [execSidesOutcome, hcheck]

/-- Witness for claim C6: over the sample session, the union of the node
    result of tag p and the text result of text fails with the message
    naming the union operation and both result types. -/
theorem set_operation_mixed_types_witness :
    Interpreter.visit_node 9 (.SetOperation (.Union tagP textSel)) sampleIt =
      some (.error (.ExecutionError (mismatchMsg "union" samplePsIt.result sampleTextIt.result)),
        sampleIt) :=
  (set_operation_mixed_types_error 9 tagP textSel sampleIt samplePsIt sampleTextIt
    rfl rfl (by decide)).1

section DedupLemmas
variable {α κ : Type} [DecidableEq κ] (key : α → κ)

/-- The kept elements of a dedup pass form a sublist of the input. -/
theorem dedupPass_sublist : ∀ (xs : List α) (seen : List κ),
    (dedupPass key xs seen).1.Sublist xs := by
  intro xs
  induction xs with
  | nil => intro seen; simp [dedupPass]
  | cons x rest ih =>
    intro seen
    simp only [dedupPass]
    by_cases h : key x ∈ seen
    · rw [if_pos h]
      exact (ih seen).cons x
    · rw [if_neg h]
      exact (ih (key x :: seen)).cons₂ x

/-- The seen set after a dedup pass holds the old seen set and every key of
    the input. -/
theorem dedupPass_seen_mem : ∀ (xs : List α) (seen : List κ) (k : κ),
    k ∈ (dedupPass key xs seen).2 ↔ k ∈ seen ∨ k ∈ xs.map key := by
  intro xs
  induction xs with
  | nil => intro seen k; simp [dedupPass]
  | cons x rest ih =>
    intro seen k
    simp only [dedupPass]
    by_cases h : key x ∈ seen
    · rw [if_pos h]
      rw [ih seen k]
      simp only [List.map_cons, List.mem_cons]
      constructor
      · rintro (hk | hk)
        · exact Or.inl hk
        · exact Or.inr (Or.inr hk)
      · rintro (hk | hk | hk)
        · exact Or.inl hk
        · exact Or.inl (hk ▸ h)
        · exact Or.inr hk
    · rw [if_neg h]
      rw [ih (key x :: seen) k]
      simp only [List.mem_cons, List.map_cons]
      tauto

/-- A key occurs among the kept elements of a dedup pass exactly when it is
    a key of the input that the seen set does not hold. -/
theorem dedupPass_mem_key : ∀ (xs : List α) (seen : List κ) (k : κ),
    k ∈ (dedupPass key xs seen).1.map key ↔ (k ∈ xs.map key ∧ k ∉ seen) := by
  intro xs
  induction xs with
  | nil => intro seen k; simp [dedupPass]
  | cons x rest ih =>
    intro seen k
    simp only [dedupPass]
    by_cases h : key x ∈ seen
    · rw [if_pos h]
      rw [ih seen k]
      simp only [List.map_cons, List.mem_cons]
      constructor
      · rintro ⟨hk, hns⟩
        exact ⟨Or.inr hk, hns⟩
      · rintro ⟨hk | hk, hns⟩
        · exact absurd (hk ▸ h) hns
        · exact ⟨hk, hns⟩
    · rw [if_neg h]
      simp only [List.map_cons, List.mem_cons]
      rw [ih (key x :: seen) k]
      simp only [List.mem_cons]
      constructor
      · rintro (hk | ⟨hk, hns⟩)
        · exact ⟨Or.inl hk, hk ▸ h⟩
        · exact ⟨Or.inr hk, fun hs => hns (Or.inr hs)⟩
      · rintro ⟨hk | hk, hns⟩
        · exact Or.inl hk
        · by_cases hkx : k = key x
          · exact Or.inl hkx
          · exact Or.inr ⟨hk, fun hs => (by rcases hs with hs | hs; exact hkx hs; exact hns hs)⟩

/-- The keys of the kept elements of a dedup pass hold no duplicates. -/
theorem dedupPass_keys_nodup : ∀ (xs : List α) (seen : List κ),
    ((dedupPass key xs seen).1.map key).Nodup := by
  intro xs
  induction xs with
  | nil => intro seen; simp [dedupPass]
  | cons x rest ih =>
    intro seen
    simp only [dedupPass]
    by_cases h : key x ∈ seen
    · rw [if_pos h]
      exact ih seen
    · rw [if_neg h]
      simp only [List.map_cons, List.nodup_cons]
      refine ⟨?_, ih (key x :: seen)⟩
      intro hmem
      have := (dedupPass_mem_key key rest (key x :: seen) (key x)).mp hmem
      exact this.2 (List.mem_cons_self _ _)

/-- A dedup pass over elements whose keys are all seen keeps nothing. -/
theorem dedupPass_all_seen : ∀ (xs : List α) (seen : List κ),
    (∀ x ∈ xs, key x ∈ seen) → (dedupPass key xs seen).1 = [] := by
  intro xs
  induction xs with
  | nil => intro seen _; rfl
  | cons x rest ih =>
    intro seen hall
    simp only [dedupPass]
    rw [if_pos (hall x (List.mem_cons_self _ _))]
    exact ih seen (fun y hy => hall y (List.mem_cons_of_mem _ hy))

/-- The union of a list with itself is its one-pass deduplication: the
    second pass contributes nothing. -/
theorem unionDedup_self (l : List α) :
    unionDedup key l l = (dedupPass key l []).1 := by
  simp only [unionDedup]
  rw [dedupPass_all_seen key l (dedupPass key l []).2
    (fun x hx => (dedupPass_seen_mem key l [] (key x)).mpr
      (Or.inr (List.mem_map_of_mem key hx)))]
  exact List.append_nil _

end DedupLemmas

/-- Claim C7: for a sub-expression that evaluates without error, the union
    of it with itself succeeds and yields the same identity set as the
    expression alone (identity tokens for nodes, string values for texts),
    in the original order (a sublist keeping first occurrences), with no
    duplicate identities. -/
theorem union_self_same_identity_set :
    ∀ (fuel : Nat) (a : Node) (it s : Interpreter),
      Interpreter.visit_node fuel a it = some (.ok (), s) →
      ∃ u : Interpreter,
        Interpreter.visit_node fuel (.SetOperation (.Union a a)) it = some (.ok (), u)
        ∧ (∀ ns, s.result = .Nodes ns → ∃ ms,
            u.result = .Nodes ms ∧ ms.Sublist ns ∧ (ms.map NodeHandle.id).Nodup ∧
            ∀ k, k ∈ ms.map NodeHandle.id ↔ k ∈ ns.map NodeHandle.id)
        ∧ (∀ ts, s.result = .Texts ts → ∃ us,
            u.result = .Texts us ∧ us.Sublist ts ∧ us.Nodup ∧
            ∀ x, x ∈ us ↔ x ∈ ts) := by
  intro fuel a it s h
  rw [visit_setop_union_unfold, h]
  cases hres : s.result with
  | Nodes ns =>
    refine ⟨{ it with result := SelectionResult.with_nodes (unionDedup NodeHandle.id ns ns) },
      ?_, ?_, ?_⟩
    · simp only [execSidesOutcome, hres]
      rw [show checkSides (.Nodes ns) (.Nodes ns) "union" = .ok (.nodes ns ns) from rfl]
    · intro ns2 hns2
      cases hns2
      refine ⟨unionDedup NodeHandle.id ns ns, rfl, ?_, ?_, ?_⟩
      · rw [unionDedup_self]
        exact dedupPass_sublist NodeHandle.id ns []
      · rw [unionDedup_self]
        exact dedupPass_keys_nodup NodeHandle.id ns []
      · intro k
        rw [unionDedup_self]
        rw [dedupPass_mem_key NodeHandle.id ns [] k]
        simp only [List.not_mem_nil, not_false_iff, and_true]
    · intro ts hts
      exact SelectionResult.noConfusion hts
  | Texts ts =>
    refine ⟨{ it with result := SelectionResult.with_texts (unionDedup (fun t => t) ts ts) },
      ?_, ?_, ?_⟩
    · simp only [execSidesOutcome, hres]
      rw [show checkSides (.Texts ts) (.Texts ts) "union" = .ok (.texts ts ts) from rfl]
    · intro ns hns
      exact SelectionResult.noConfusion hns
    · intro ts2 hts2
      cases hts2
      refine ⟨unionDedup (fun t => t) ts ts, rfl, ?_, ?_, ?_⟩
      · rw [unionDedup_self]
        exact dedupPass_sublist (fun t => t) ts []
      · rw [unionDedup_self]
        have h2 := dedupPass_keys_nodup (fun t => t) ts []
        simpa using h2
      · intro x
        rw [unionDedup_self]
        have h2 := dedupPass_mem_key (fun t => t) ts [] x
        simp only [List.map_id_fun, id] at h2
        rw [show List.map (fun t => t) (dedupPass (fun t => t) ts []).1 =
              (dedupPass (fun t => t) ts []).1 from List.map_id _,
            show List.map (fun t => t) ts = ts from List.map_id _] at h2
        rw [h2]
        simp

/-- Witness for claim C7: Union(tag p, tag p) over the sample session. -/
theorem union_self_witness :
    ∃ u : Interpreter,
      Interpreter.visit_node 9 (.SetOperation (.Union tagP tagP)) sampleIt = some (.ok (), u)
      ∧ (∀ ns, samplePsIt.result = .Nodes ns → ∃ ms,
          u.result = .Nodes ms ∧ ms.Sublist ns ∧ (ms.map NodeHandle.id).Nodup ∧
          ∀ k, k ∈ ms.map NodeHandle.id ↔ k ∈ ns.map NodeHandle.id)
      ∧ (∀ ts, samplePsIt.result = .Texts ts → ∃ us,
          u.result = .Texts us ∧ us.Sublist ts ∧ us.Nodup ∧
          ∀ x, x ∈ us ↔ x ∈ ts) :=
  union_self_same_identity_set 9 tagP sampleIt samplePsIt rfl

/-- The difference filter of a list against itself keeps nothing. -/
theorem differenceFilter_self {α κ : Type} [DecidableEq κ] (key : α → κ) (l : List α) :
    differenceFilter key l l = [] := by
  simp only [differenceFilter]
  rw [List.filter_eq_nil_iff]
  intro x hx
  simp [List.mem_map_of_mem key hx]

/-- Claim C8: for a sub-expression that evaluates without error, the
    difference of it with itself evaluates both branches and produces an
    empty result of the same tag, for node and text results alike. -/
theorem difference_self_empty :
    ∀ (fuel : Nat) (a : Node) (it s : Interpreter),
      Interpreter.visit_node fuel a it = some (.ok (), s) →
      ∃ u : Interpreter,
        Interpreter.visit_node fuel (.SetOperation (.Difference a a)) it = some (.ok (), u)
        ∧ u.result.is_empty = true
        ∧ u.result.is_nodes = s.result.is_nodes := by
  intro fuel a it s h
  rw [visit_setop_diff_unfold, h]
  cases hres : s.result with
  | Nodes ns =>
    refine ⟨{ it with result := SelectionResult.with_nodes (differenceFilter NodeHandle.id ns ns) },
      ?_, ?_, ?_⟩
    · simp only [execSidesOutcome, hres]
      rw [show checkSides (.Nodes ns) (.Nodes ns) "difference" = .ok (.nodes ns ns) from rfl]
    · show (SelectionResult.with_nodes (differenceFilter NodeHandle.id ns ns)).is_empty = true
      rw [differenceFilter_self]
      rfl
    · show (SelectionResult.with_nodes (differenceFilter NodeHandle.id ns ns)).is_nodes =
        (SelectionResult.Nodes ns).is_nodes
      rfl
  | Texts ts =>
    refine ⟨{ it with result := SelectionResult.with_texts (differenceFilter (fun t => t) ts ts) },
      ?_, ?_, ?_⟩
    · simp only [execSidesOutcome, hres]
      rw [show checkSides (.Texts ts) (.Texts ts) "difference" = .ok (.texts ts ts) from rfl]
    · show (SelectionResult.with_texts (differenceFilter (fun t => t) ts ts)).is_empty = true
      rw [differenceFilter_self]
      rfl
    · rfl

/-- Witness for claim C8: Difference(tag p, tag p) over the sample
    session. -/
theorem difference_self_witness :
    ∃ u : Interpreter,
      Interpreter.visit_node 9 (.SetOperation (.Difference tagP tagP)) sampleIt =
        some (.ok (), u)
      ∧ u.result.is_empty = true
      ∧ u.result.is_nodes = samplePsIt.result.is_nodes :=
  difference_self_empty 9 tagP sampleIt samplePsIt rfl

/-- Claim C9: over any non-empty current result, the single index -1
    selects the same element as index N-1; indices N and -(N+1) are always
    out-of-bounds errors; an integer index succeeds exactly when it lies in
    [-N, N); and a negative in-range index resolves by adding N. -/
theorem single_index_negative_indexing :
    ∀ (res : SelectionResult), 0 < res.count →
      (apply_single_index res (.int (-1)) =
        apply_single_index res (.int ((res.count : Int) - 1)))
      ∧ apply_single_index res (.int (res.count : Int)) =
          .error (.IndexOutOfBounds (i64AsUsize (res.count : Int)) res.count)
      ∧ apply_single_index res (.int (-((res.count : Int) + 1))) =
          .error (.IndexOutOfBounds (i64AsUsize (-((res.count : Int) + 1))) res.count)
      ∧ (∀ i : Int, (∃ r, apply_single_index res (.int i) = .ok r) ↔
          (-(res.count : Int) ≤ i ∧ i < (res.count : Int)))
      ∧ (∀ i : Int, i < 0 → -(res.count : Int) ≤ i →
          apply_single_index res (.int i) = apply_single_index res (.int (i + res.count))) := by
  intro res h
  cases res with
  | Nodes xs =>
    have hlen : 0 < xs.length := h
    refine ⟨?_, ?_, ?_, ?_, ?_⟩
    · simp only [apply_single_index, SelectionResult.count]
      rw [if_neg (by omega), if_pos (by omega), if_pos (by omega)]
      congr 3
    · simp only [apply_single_index, SelectionResult.count]
      rw [if_neg (by omega), if_neg (by omega)]
    · simp only [apply_single_index, SelectionResult.count]
      rw [if_neg (by omega), if_neg (by omega)]
    · intro i
      simp only [SelectionResult.count]
      constructor
      · rintro ⟨r, hr⟩
        simp only [apply_single_index] at hr
        by_cases h1 : 0 ≤ i ∧ i < (xs.length : Int)
        · constructor <;> omega
        · rw [if_neg h1] at hr
          by_cases h2 : i < 0 ∧ -i ≤ (xs.length : Int)
          · constructor <;> omega
          · rw [if_neg h2] at hr
            exact Except.noConfusion hr
      · intro hb
        simp only [apply_single_index]
        by_cases h1 : 0 ≤ i ∧ i < (xs.length : Int)
        · rw [if_pos h1]
          exact ⟨_, rfl⟩
        · rw [if_neg h1, if_pos (by omega)]
          exact ⟨_, rfl⟩
    · intro i hi1 hi2
      simp only [SelectionResult.count] at hi2 ⊢
      simp only [apply_single_index]
      rw [if_neg (by omega), if_pos (by omega), if_pos (by omega)]
  | Texts xs =>
    have hlen : 0 < xs.length := h
    refine ⟨?_, ?_, ?_, ?_, ?_⟩
    · simp only [apply_single_index, SelectionResult.count]
      rw [if_neg (by omega), if_pos (by omega), if_pos (by omega)]
      congr 3
    · simp only [apply_single_index, SelectionResult.count]
      rw [if_neg (by omega), if_neg (by omega)]
    · simp only [apply_single_index, SelectionResult.count]
      rw [if_neg (by omega), if_neg (by omega)]
    · intro i
      simp only [SelectionResult.count]
      constructor
      · rintro ⟨r, hr⟩
        simp only [apply_single_index] at hr
        by_cases h1 : 0 ≤ i ∧ i < (xs.length : Int)
        · constructor <;> omega
        · rw [if_neg h1] at hr
          by_cases h2 : i < 0 ∧ -i ≤ (xs.length : Int)
          · constructor <;> omega
          · rw [if_neg h2] at hr
            exact Except.noConfusion hr
      · intro hb
        simp only [apply_single_index]
        by_cases h1 : 0 ≤ i ∧ i < (xs.length : Int)
        · rw [if_pos h1]
          exact ⟨_, rfl⟩
        · rw [if_neg h1, if_pos (by omega)]
          exact ⟨_, rfl⟩
    · intro i hi1 hi2
      simp only [SelectionResult.count] at hi2 ⊢
      simp only [apply_single_index]
      rw [if_neg (by omega), if_pos (by omega), if_pos (by omega)]

/-- Witness for claim C9 at the two-element Texts result. -/
theorem single_index_negative_indexing_witness :
    (apply_single_index (SelectionResult.with_texts [strBytes "a", strBytes "b"]) (.int (-1)) =
      apply_single_index (SelectionResult.with_texts [strBytes "a", strBytes "b"])
        (.int (((SelectionResult.with_texts [strBytes "a", strBytes "b"]).count : Int) - 1)))
    ∧ apply_single_index (SelectionResult.with_texts [strBytes "a", strBytes "b"])
        (.int ((SelectionResult.with_texts [strBytes "a", strBytes "b"]).count : Int)) =
        .error (.IndexOutOfBounds
          (i64AsUsize ((SelectionResult.with_texts [strBytes "a", strBytes "b"]).count : Int))
          (SelectionResult.with_texts [strBytes "a", strBytes "b"]).count)
    ∧ apply_single_index (SelectionResult.with_texts [strBytes "a", strBytes "b"])
        (.int (-(((SelectionResult.with_texts [strBytes "a", strBytes "b"]).count : Int) + 1))) =
        .error (.IndexOutOfBounds
          (i64AsUsize (-(((SelectionResult.with_texts [strBytes "a", strBytes "b"]).count : Int) + 1)))
          (SelectionResult.with_texts [strBytes "a", strBytes "b"]).count)
    ∧ (∀ i : Int, (∃ r, apply_single_index (SelectionResult.with_texts [strBytes "a", strBytes "b"]) (.int i) = .ok r) ↔
        (-((SelectionResult.with_texts [strBytes "a", strBytes "b"]).count : Int) ≤ i ∧
          i < ((SelectionResult.with_texts [strBytes "a", strBytes "b"]).count : Int)))
    ∧ (∀ i : Int, i < 0 →
        -((SelectionResult.with_texts [strBytes "a", strBytes "b"]).count : Int) ≤ i →
        apply_single_index (SelectionResult.with_texts [strBytes "a", strBytes "b"]) (.int i) =
          apply_single_index (SelectionResult.with_texts [strBytes "a", strBytes "b"])
            (.int (i + (SelectionResult.with_texts [strBytes "a", strBytes "b"]).count))) :=
  single_index_negative_indexing (SelectionResult.with_texts [strBytes "a", strBytes "b"])
    (by decide)

/-- A well-typed slice bound passes the argument check and decodes to
    itself. -/
theorem sliceArg_optLit : ∀ o : Option Nat, sliceArg (optLit o) = .ok o := by
  intro o
  cases o with
  | none => rfl
  | some n =>
    simp only [optLit, sliceArg]
    rw [if_neg (by omega : ¬ (n : Int) < 0)]
    simp

/-- The clamped and swapped slice bounds are always ordered, so str::get
    can only decline a range over a character-boundary failure. -/
theorem sliceBounds_le (t : RStr) (st ed : Option Nat) :
    (sliceBounds t st ed).1 ≤ (sliceBounds t st ed).2 := by
  simp only [sliceBounds]
  by_cases h : st.getD 0 > min (ed.getD t.length) t.length
  · rw [if_pos h]
    simp only []
    omega
  · rw [if_neg h]
    simp only []
    omega

/-- The embedded slice computes str::get at exactly the clamped and
    swapped bounds. -/
theorem sliceOne_eq (t : RStr) (st ed : Option Nat) :
    sliceOne t st ed =
      (match strGet t (sliceBounds t st ed).1 (sliceBounds t st ed).2 with
       | some sub => sub
       | none => t) := by
  simp only [sliceOne, sliceBounds]
  have hmin : (if ed.getD t.length > t.length then t.length else ed.getD t.length) =
      min (ed.getD t.length) t.length := by
    by_cases hc : ed.getD t.length > t.length
    · rw [if_pos hc]; omega
    · rw [if_neg hc]; omega
  rw [hmin]
  by_cases h : st.getD 0 > min (ed.getD t.length) t.length
  · rw [if_pos h, if_pos h]
    have h2 : (if st.getD 0 > t.length then t.length else st.getD 0) =
        min (st.getD 0) t.length := by
      by_cases hc : st.getD 0 > t.length
      · rw [if_pos hc]; omega
      · rw [if_neg hc]; omega
    rw [h2]
  · rw [if_neg h, if_neg h]

/-- Claim C10: a well-typed slice call (each bound a non-negative integer
    or nil) over any Texts result never fails: it returns the per-element
    slice, where each element becomes the byte substring between the
    clamped and swapped bounds when both fall on UTF-8 character
    boundaries, and is left unchanged otherwise. -/
theorem slice_never_fails_byte_bounds :
    ∀ (texts : List RStr) (st ed : Option Nat),
      apply_function { name := "slice", arguments := [optLit st, optLit ed] }
        (SelectionResult.with_texts texts) =
        .ok (SelectionResult.with_texts (texts.map (fun t => sliceOne t st ed)))
      ∧ ∀ t : RStr,
          ((is_char_boundary t (sliceBounds t st ed).1 &&
            is_char_boundary t (sliceBounds t st ed).2) = true →
            sliceOne t st ed =
              (t.drop (sliceBounds t st ed).1).take
                ((sliceBounds t st ed).2 - (sliceBounds t st ed).1))
          ∧ ((is_char_boundary t (sliceBounds t st ed).1 &&
              is_char_boundary t (sliceBounds t st ed).2) = false →
              sliceOne t st ed = t) := by
  intro texts st ed
  constructor
  · simp only [apply_function, SelectionResult.with_texts, SelectionResult.textsE]
    rw [sliceArg_optLit st, sliceArg_optLit ed]
    rfl
  · intro t
    have hle : (sliceBounds t st ed).1 ≤ (sliceBounds t st ed).2 := sliceBounds_le t st ed
    have hdec : decide ((sliceBounds t st ed).1 ≤ (sliceBounds t st ed).2) = true :=
      decide_eq_true hle
    constructor
    · intro hcb
      obtain ⟨h1, h2⟩ := (Bool.and_eq_true _ _).mp hcb
      rw [sliceOne_eq]
      simp only [strGet, hdec, h1, h2, Bool.and_self, Bool.true_and, Bool.and_true, if_true]
    · intro hcb
      rw [sliceOne_eq]
      simp only [strGet]
      have hfalse : (decide ((sliceBounds t st ed).1 ≤ (sliceBounds t st ed).2) &&
          is_char_boundary t (sliceBounds t st ed).1 &&
          is_char_boundary t (sliceBounds t st ed).2) = false := by
        rcases Bool.and_eq_false_iff.mp hcb with hf | hf
        · rw [Bool.and_assoc, hf]
          simp
        · rw [hf]
          simp
      rw [hfalse]
      simp

/-- Witness for claim C10: on the bytes of héllo, the bound 2 falls inside
    the two-byte é and leaves the element unchanged, while bounds 0 and 3
    cut the byte substring; the call itself succeeds in both cases. -/
theorem slice_never_fails_byte_bounds_witness :
    apply_function { name := "slice", arguments := [optLit (some 1), optLit (some 2)] }
      (SelectionResult.with_texts [strBytes "héllo"]) =
      .ok (SelectionResult.with_texts
        ([strBytes "héllo"].map (fun t => sliceOne t (some 1) (some 2))))
    ∧ sliceOne (strBytes "héllo") (some 1) (some 2) = strBytes "héllo"
    ∧ sliceOne (strBytes "héllo") (some 0) (some 3) =
        ((strBytes "héllo").drop (sliceBounds (strBytes "héllo") (some 0) (some 3)).1).take
          ((sliceBounds (strBytes "héllo") (some 0) (some 3)).2 -
            (sliceBounds (strBytes "héllo") (some 0) (some 3)).1) :=
  ⟨(slice_never_fails_byte_bounds [strBytes "héllo"] (some 1) (some 2)).1,
   ((slice_never_fails_byte_bounds [strBytes "héllo"] (some 1) (some 2)).2
     (strBytes "héllo")).2 (by decide),
   ((slice_never_fails_byte_bounds [strBytes "héllo"] (some 0) (some 3)).2
     (strBytes "héllo")).1 (by decide)⟩

end Htmls
